import Mathlib

set_option maxHeartbeats 1000000

/- Verification of the CVE-reproduction pipeline.

   Shallow embedding of `src/main.py` (the budget monitor
   `CVEReproducer.update_cost`, the repository-build / exploit / CTF-verifier
   retry loops inside `CVEReproducer.run`, the phase sequencing, and the
   `__main__` finalization) and of `src/toolbox/command_ops.py` (the command
   execution sandbox).  Language-model agents, critics and the validator are
   external collaborators: their replies and reported costs enter the model as
   oracle inputs, one record per loop iteration.  Wall-clock timing
   (`check_time`, `signal.alarm`) is outside the scope of the claims treated
   here and is not modelled. -/

/-! ## Budget monitor and charge instrumentation -/

abbrev Cost := ℚ

/-- `MAX_COST = 5.00` (main.py:42). -/
def MAX_COST : Cost := 5

/-- Python `str.lower()` for one character (ASCII case mapping suffices for
the `yes`/`no` decision fields compared by `CVEReproducer.run`). -/
def pyLowerChar (c : Char) : Char :=
  if 65 ≤ c.toNat ∧ c.toNat ≤ 90 then Char.ofNat (c.toNat + 32) else c

/-- Python `str.lower()`. -/
def pyLower (s : String) : String := ⟨s.data.map pyLowerChar⟩

def pyIsSpace (c : Char) : Bool :=
  c == ' ' || c == '\t' || c == '\n' || c == '\r' || c == '\x0b' || c == '\x0c'

/-- Python `str.strip()`: drop leading and trailing whitespace. -/
def pyStrip (s : String) : String :=
  ⟨((s.data.dropWhile pyIsSpace).reverse.dropWhile pyIsSpace).reverse⟩

/-- The call sites of `CVEReproducer.update_cost` in `CVEReproducer.run`,
one constructor per textual call site group. -/
inductive ChargeSite where
  | kb            -- main.py:104
  | prereq        -- main.py:134
  | repoAgent     -- main.py:186, 215, 221, 253
  | repoCritic    -- main.py:235
  | exploitAgent  -- main.py:320, 385
  | exploitCritic -- main.py:367
  | verifierAgent -- main.py:500
  | verifierSanity -- main.py:490
  deriving Repr, DecidableEq

def ChargeSite.inVerifier : ChargeSite → Bool
  | .verifierAgent => true
  | .verifierSanity => true
  | _ => false

/-- Instrumentation record for one `update_cost` call: the delta, the
`exception` (allow-overrun) argument it was given, and two snapshots of the
orchestrator state at the moment of the call: `decided` (the phase loop's
conclusion is already fixed: its done flag is set or a terminal `self.results`
has been written) and `done` (the phase's success flag alone). -/
structure ChargeEvent where
  site : ChargeSite
  delta : Cost
  allowOverrun : Bool
  decided : Bool
  done : Bool
  deriving Repr, DecidableEq

/-- Orchestrator state.  The first five fields are the loop-local variables of
each retry loop (`repo_done`/`exploit_done`/`verifier_done`,
`repo_feedback`/`exploit_feedback`/`ctf_feedback`, `critic_feedback`,
`repo_try`/`exploit_try`/`try_itr`, `critic_try`/`exploit_critic_try`/
`sanity_itr`); they are re-initialised at each loop entry.  `total_cost` and
`results` are the fields of `CVEReproducer`; `artifactSuccess` is the
`success` field of the most recently stored build/exploit artifact
(`self.repo_build` resp. `self.exploit`).  `aborted`, `trace`, `agentCalls`
and `criticCalls` are proof instrumentation (whether the `ValueError` of
`update_cost` ended the run, the list of charges performed, and how many
agent resp. critic invocations happened). -/
structure LoopSt where
  done : Bool
  builder_feedback : Option String
  critic_feedback : Option String
  tries : Nat
  critic_tries : Nat
  total_cost : Cost
  results : Option (String × String)
  artifactSuccess : Option String
  aborted : Bool
  trace : List ChargeEvent
  agentCalls : Nat
  criticCalls : Nat
  deriving Repr, DecidableEq

def mkEvent (site : ChargeSite) (s : LoopSt) (cost : Cost) (exception : Bool) : ChargeEvent :=
  { site := site, delta := cost, allowOverrun := exception,
    decided := s.done || s.results.isSome, done := s.done }

/-- `CVEReproducer.update_cost` (main.py:56-59): `self.total_cost += cost`,
then `raise ValueError("Cost exceeds maximum limit")` when the new total
meets or exceeds `MAX_COST` and `exception` is false.  The boolean of the
result records whether the error was raised; the cost was added either way. -/
def update_cost (site : ChargeSite) (s : LoopSt) (cost : Cost) (exception : Bool) :
    LoopSt × Bool :=
  ({ s with total_cost := s.total_cost + cost,
            trace := s.trace ++ [mkEvent site s cost exception] },
   decide (MAX_COST ≤ s.total_cost + cost) && !exception)

/-- Outcome of one body of a `while` loop in `CVEReproducer.run`: fall through
to the next iteration, `return` out of `run`, or propagate the `ValueError`
raised by `update_cost` (caught at main.py:517). -/
inductive IterMode where
  | cont
  | ret
  | abort
  deriving Repr, DecidableEq

/-- Charge, then either propagate the budget `ValueError` or continue with `k`. -/
def afterCharge (site : ChargeSite) (s : LoopSt) (cost : Cost) (exception : Bool)
    (k : LoopSt → LoopSt × IterMode) : LoopSt × IterMode :=
  if (update_cost site s cost exception).2 then ((update_cost site s cost exception).1, .abort)
  else k (update_cost site s cost exception).1

/-! ## Oracle inputs for one loop iteration -/

/-- The value an agent invocation returns: either the sentinel string
`"Agent stopped due to max iterations."` (main.py:175, 309) or a structured
result whose `success` field is a yes/no string. -/
inductive AgentRes where
  | stopped
  | finished (success : String)
  deriving Repr, DecidableEq

/-- A critic reply: `decision`, `possible` and `feedback` fields
(main.py:209-225, 343-357). -/
structure CriticRes where
  decision : String
  possible : String
  feedback : String
  deriving Repr, DecidableEq

/-- Oracle data consumed by one iteration of the repo-build or exploit loop:
the agent's reply and reported cost, the text of the summarize-work follow-up
invocation, and the critic's reply and reported cost (used only when the
iteration actually consults the critic). -/
structure IterIn where
  agentRes : AgentRes
  agentCost : Cost
  summary : String
  critic : CriticRes
  criticCost : Cost
  deriving Repr, DecidableEq

/-! ## Repository-build loop (main.py:147-262) -/

def max_repo_tries : Nat := 3
def max_critic_tries : Nat := 2
def max_exploit_tries : Nat := 3
def max_exploit_critic_tries : Nat := 2
def max_flag_tries : Nat := 5
def max_sanity_tries : Nat := 5

/-- One body of the `while` loop at main.py:157-254.  `criticEnabled` is the
`REPO_CRITIC` flag. -/
def repoIter (criticEnabled : Bool) (s : LoopSt) (i : IterIn) : LoopSt × IterMode :=
  let s := { s with agentCalls := s.agentCalls + 1 }     -- repo_builder.invoke (main.py:171)
  let s := { s with critic_feedback := none }            -- main.py:172
  match i.agentRes with
  | .stopped =>                                          -- main.py:175-186
      let s := if s.tries < max_repo_tries then
          { s with builder_feedback := some i.summary, critic_feedback := none }
        else s
      afterCharge .repoAgent s i.agentCost false fun s =>
        ({ s with tries := s.tries + 1 }, .cont)         -- main.py:254
  | .finished success =>
      let s := { s with artifactSuccess := some success }  -- main.py:188
      if pyLower success == "yes" then                     -- main.py:196
        if criticEnabled then
          let s := { s with criticCalls := s.criticCalls + 1,
                            critic_tries := s.critic_tries + 1 }   -- main.py:205-207
          if pyLower i.critic.decision == "no" then                -- main.py:209
            if pyLower i.critic.possible == "no" then              -- main.py:212-216
              let s := { s with results := some ("False", "Not possible to build the repo!!!") }
              afterCharge .repoAgent s i.agentCost false fun s => (s, .ret)
            else if pyStrip i.critic.feedback == "" then              -- main.py:218-222
              let s := { s with results := some ("False", "No feedback to correct the setup!!!") }
              afterCharge .repoAgent s i.agentCost false fun s => (s, .ret)
            else                                                   -- main.py:224-227
              let s := { s with critic_feedback := some i.critic.feedback,
                                builder_feedback := none, tries := 0 }
              afterCharge .repoCritic s i.criticCost s.done fun s =>     -- main.py:235
                afterCharge .repoAgent s i.agentCost s.done fun s =>     -- main.py:253
                  ({ s with tries := s.tries + 1 }, .cont)
          else                                                     -- main.py:228-234
            let s := { s with done := true }
            afterCharge .repoCritic s i.criticCost s.done fun s =>
              afterCharge .repoAgent s i.agentCost s.done fun s =>
                ({ s with tries := s.tries + 1 }, .cont)
        else                                                       -- main.py:236-240
          let s := { s with done := true }
          afterCharge .repoAgent s i.agentCost s.done fun s =>
            ({ s with tries := s.tries + 1 }, .cont)
      else                                                         -- main.py:241-252
        let s := if s.tries < max_repo_tries then
            { s with builder_feedback := some i.summary, critic_feedback := none }
          else s
        afterCharge .repoAgent s i.agentCost s.done fun s =>
          ({ s with tries := s.tries + 1 }, .cont)

/-- One body of the exploit `while` loop at main.py:292-386.  Identical in
shape to `repoIter` except: no reset of critic feedback right after the
invocation (there is no analogue of main.py:172), and the two terminal
critic-reject branches (infeasible, empty feedback) `return` without charging
anything (main.py:346-354). -/
def exploitIter (criticEnabled : Bool) (s : LoopSt) (i : IterIn) : LoopSt × IterMode :=
  let s := { s with agentCalls := s.agentCalls + 1 }     -- exploiter.invoke (main.py:306)
  match i.agentRes with
  | .stopped =>                                          -- main.py:309-320
      let s := if s.tries < max_exploit_tries then
          { s with builder_feedback := some i.summary, critic_feedback := none }
        else s
      afterCharge .exploitAgent s i.agentCost false fun s =>
        ({ s with tries := s.tries + 1 }, .cont)         -- main.py:386
  | .finished success =>
      let s := { s with artifactSuccess := some success }  -- main.py:322
      if pyLower success == "yes" then                     -- main.py:330
        if criticEnabled then
          let s := { s with criticCalls := s.criticCalls + 1,
                            critic_tries := s.critic_tries + 1 }   -- main.py:339-341
          if pyLower i.critic.decision == "no" then                -- main.py:343
            if pyLower i.critic.possible == "no" then              -- main.py:346-349
              ({ s with results := some ("False", "Not possible to exploit the vulnerability!!!") }, .ret)
            else if pyStrip i.critic.feedback == "" then              -- main.py:351-354
              ({ s with results := some ("False", "No feedback to correct the exploit!!!") }, .ret)
            else                                                   -- main.py:356-359
              let s := { s with critic_feedback := some i.critic.feedback,
                                builder_feedback := none, tries := 0 }
              afterCharge .exploitCritic s i.criticCost s.done fun s =>   -- main.py:367
                afterCharge .exploitAgent s i.agentCost s.done fun s =>   -- main.py:385
                  ({ s with tries := s.tries + 1 }, .cont)
          else                                                     -- main.py:360-366
            let s := { s with done := true }
            afterCharge .exploitCritic s i.criticCost s.done fun s =>
              afterCharge .exploitAgent s i.agentCost s.done fun s =>
                ({ s with tries := s.tries + 1 }, .cont)
        else                                                       -- main.py:368-372
          let s := { s with done := true }
          afterCharge .exploitAgent s i.agentCost s.done fun s =>
            ({ s with tries := s.tries + 1 }, .cont)
      else                                                         -- main.py:373-384
        let s := if s.tries < max_exploit_tries then
            { s with builder_feedback := some i.summary, critic_feedback := none }
          else s
        afterCharge .exploitAgent s i.agentCost s.done fun s =>
          ({ s with tries := s.tries + 1 }, .cont)

/-! ## CTF-verifier loop (main.py:412-510) -/

/-- Oracle data for one iteration of the verifier loop: the produced verifier
artifact and its cost, the deterministic validator's outcome (`check`) and its
feedback log, and the sanity critic's reply and cost. -/
structure VIterIn where
  verifier : String
  verifierCost : Cost
  check : Bool
  valFeedback : String
  sanityDecision : String
  sanitySteps : String
  sanityCost : Cost
  deriving Repr, DecidableEq

/-- Feedback string built at main.py:484. -/
def mkSanityFeedback (verifier steps : String) : String :=
  "Previous Code: \x60\x60\x60\n" ++ verifier ++ "\n\x60\x60\x60\n\nProposed Fixes: \x27\x27\x27\n" ++
    steps ++ "\n\x27\x27\x27"

/-- Feedback string built at main.py:498. -/
def mkValidatorFeedback (verifier logs : String) : String :=
  "Previous Code: \x60\x60\x60\n" ++ verifier ++ "\n\x60\x60\x60\n\nOutput Logs: \x27\x27\x27\n" ++
    logs ++ "\n\x27\x27\x27"

/-- One body of the `while` loop at main.py:426-500.  `sanityEnabled` is the
`SANITY_CHECK` flag.  Both `update_cost` calls of this loop pass
`exception=True` (main.py:490, 500). -/
def verifierIter (sanityEnabled : Bool) (s : LoopSt) (i : VIterIn) : LoopSt × IterMode :=
  let s := { s with agentCalls := s.agentCalls + 1 }     -- ctf_verifier.invoke (main.py:442)
  let finishIter : LoopSt → LoopSt × IterMode := fun s =>
    let s := { s with tries := s.tries + 1 }             -- main.py:499
    afterCharge .verifierAgent s i.verifierCost true fun s => (s, .cont)  -- main.py:500
  if i.check then                                        -- main.py:456
    if sanityEnabled then
      let s := { s with criticCalls := s.criticCalls + 1,
                        critic_tries := s.critic_tries + 1 }       -- main.py:471-473
      if pyLower i.sanityDecision == "no" then                     -- main.py:475
        if i.sanitySteps == "" then                                -- main.py:478-481
          ({ s with results := some ("False", "No feedback to correct the verifier!!!") }, .ret)
        else                                                       -- main.py:483-485
          let s := { s with builder_feedback := some (mkSanityFeedback i.verifier i.sanitySteps),
                            tries := 0 }
          afterCharge .verifierSanity s i.sanityCost true finishIter      -- main.py:490
      else                                                         -- main.py:486-490
        let s := { s with done := true }
        afterCharge .verifierSanity s i.sanityCost true finishIter
    else                                                           -- main.py:491-494
      let s := { s with done := true }
      finishIter s
  else                                                             -- main.py:495-498
    let s := { s with builder_feedback := some (mkValidatorFeedback i.verifier i.valFeedback) }
    finishIter s

/-! ## The generic while-loop runner -/

/-- How a loop finished: the `while` condition became false (`normal`), the
body executed `return` (`returned`), the body raised the budget `ValueError`
(`aborted`), or the oracle input list ran out while the condition still held
(`stuck`, a model artifact: the real loop would have iterated further). -/
inductive ExitMode where
  | normal
  | returned
  | aborted
  | stuck
  deriving Repr, DecidableEq

def runLoop {α : Type} (cond : LoopSt → Bool) (iter : LoopSt → α → LoopSt × IterMode) :
    List α → LoopSt → LoopSt × ExitMode
  | [], s => (s, if cond s then .stuck else .normal)
  | i :: rest, s =>
      if cond s then
        match iter s i with
        | (s', .cont) => runLoop cond iter rest s'
        | (s', .ret) => (s', .returned)
        | (s', .abort) => (s', .aborted)
      else (s, .normal)

/-- `while not repo_done and repo_try <= 3 and critic_try <= 2` (main.py:157). -/
def repoLoopCond (s : LoopSt) : Bool :=
  !s.done && decide (s.tries ≤ max_repo_tries) && decide (s.critic_tries ≤ max_critic_tries)

/-- `while not exploit_done and exploit_try <= 3 and exploit_critic_try <= 2`
(main.py:292). -/
def exploitLoopCond (s : LoopSt) : Bool :=
  !s.done && decide (s.tries ≤ max_exploit_tries) && decide (s.critic_tries ≤ max_exploit_critic_tries)

/-- `while not verifier_done and try_itr <= 5 and sanity_itr <= 5` (main.py:426). -/
def verifierLoopCond (s : LoopSt) : Bool :=
  !s.done && decide (s.tries ≤ max_flag_tries) && decide (s.critic_tries ≤ max_sanity_tries)

/-! ## Phase sequencing (`CVEReproducer.run`, main.py:61-522) -/

/-- The module-level feature flags (main.py:30-39, set from the CLI at 552-562). -/
structure RunCfg where
  KB : Bool
  PRE_REQ : Bool
  REPO : Bool
  REPO_CRITIC : Bool
  EXPLOIT : Bool
  EXPLOIT_CRITIC : Bool
  CTF_VERIFIER : Bool
  SANITY_CHECK : Bool
  deriving Repr, DecidableEq

/-- All external inputs of one run: costs reported by the knowledge and
pre-requisite builders, whether skipped phases find their stored artifact, the
`success` field of loaded artifacts, and the per-iteration oracle data of the
three retry loops. -/
structure RunOracle where
  kbCost : Cost
  kbLoadFound : Bool
  prereqCost : Cost
  prereqLoadFound : Bool
  repoInputs : List IterIn
  repoLoadFound : Bool
  repoLoaded : String
  exploitInputs : List IterIn
  exploitLoadFound : Bool
  exploitLoaded : String
  verifierInputs : List VIterIn
  deriving Repr, DecidableEq

/-- The handler at main.py:517-519 catching the budget `ValueError`:
`self.results = {"success": "False", "reason": str(e)}`. -/
def costAbort (s : LoopSt) : LoopSt :=
  { s with results := some ("False", "Cost exceeds maximum limit"), aborted := true }

/-- Loop-local variable initialisation (main.py:152-155, 287-290, 421-424). -/
def loopInit (s : LoopSt) : LoopSt :=
  { s with done := false, builder_feedback := none, critic_feedback := none,
           tries := 1, critic_tries := 1 }

/-- Knowledge phase (main.py:63-114): when `KB` is set, one charged builder
invocation; otherwise load the stored response, failing the run if absent. -/
def phaseKB (cfg : RunCfg) (o : RunOracle) (s : LoopSt) : Except LoopSt LoopSt :=
  if cfg.KB then
    let s := { s with agentCalls := s.agentCalls + 1 }
    if (update_cost .kb s o.kbCost false).2 then .error (costAbort (update_cost .kb s o.kbCost false).1)
    else .ok (update_cost .kb s o.kbCost false).1
  else if o.kbLoadFound then .ok s
  else .error { s with results := some ("False", "Knowledge Builder response not found") }

/-- Pre-requisites phase (main.py:118-143). -/
def phasePreReq (cfg : RunCfg) (o : RunOracle) (s : LoopSt) : Except LoopSt LoopSt :=
  if cfg.PRE_REQ then
    let s := { s with agentCalls := s.agentCalls + 1 }
    if (update_cost .prereq s o.prereqCost false).2 then
      .error (costAbort (update_cost .prereq s o.prereqCost false).1)
    else .ok (update_cost .prereq s o.prereqCost false).1
  else if o.prereqLoadFound then .ok s
  else .error { s with results := some ("False", "Pre-Requsites Builder response not found") }

/-- What happens when the repo-build loop stops (main.py:256-262, plus the
run-level `ValueError` handler for the `aborted` case). -/
def repoLoopFinish : LoopSt × ExitMode → Except LoopSt LoopSt
  | (s, .aborted) => .error (costAbort s)
  | (s, .returned) => .error s
  | (s, .stuck) => .error s
  | (s, .normal) =>
      if s.done then .ok s
      else .error { s with results := some ("False", "Repo could not be built") }

/-- Repository-build phase (main.py:147-270). -/
def phaseRepo (cfg : RunCfg) (o : RunOracle) (s : LoopSt) : Except LoopSt LoopSt :=
  if cfg.REPO then
    repoLoopFinish (runLoop repoLoopCond (repoIter cfg.REPO_CRITIC) o.repoInputs (loopInit s))
  else if o.repoLoadFound then .ok { s with artifactSuccess := some o.repoLoaded }
  else .error { s with results := some ("False", "Repo Builder response not found") }

/-- `if self.repo_build['success'].lower()=="no"` (main.py:274-276). -/
def checkRepoBuilt (s : LoopSt) : Except LoopSt LoopSt :=
  if pyLower (s.artifactSuccess.getD "") == "no" then
    .error { s with results := some ("False", "Repo was not built!!!") }
  else .ok s

/-- What happens when the exploit loop stops (main.py:388-396). -/
def exploitLoopFinish : LoopSt × ExitMode → Except LoopSt LoopSt
  | (s, .aborted) => .error (costAbort s)
  | (s, .returned) => .error s
  | (s, .stuck) => .error s
  | (s, .normal) =>
      if s.done then .ok { s with results := some ("True", "Exploit script created") }
      else .error { s with results := some ("False", "Exploiter failed") }

/-- Exploit phase (main.py:278-404). -/
def phaseExploit (cfg : RunCfg) (o : RunOracle) (s : LoopSt) : Except LoopSt LoopSt :=
  if cfg.EXPLOIT then
    exploitLoopFinish (runLoop exploitLoopCond (exploitIter cfg.EXPLOIT_CRITIC) o.exploitInputs (loopInit s))
  else if o.exploitLoadFound then .ok { s with artifactSuccess := some o.exploitLoaded }
  else .error { s with results := some ("False", "Exploiter response not found") }

/-- `if self.exploit['success'].lower() == "no"` (main.py:408-410). -/
def checkExploitGenerated (s : LoopSt) : Except LoopSt LoopSt :=
  if pyLower (s.artifactSuccess.getD "") == "no" then
    .error { s with results := some ("False", "Exploit was not generated!!!") }
  else .ok s

/-- What happens when the verifier loop stops (main.py:502-510). -/
def verifierLoopFinish : LoopSt × ExitMode → LoopSt
  | (s, .aborted) => costAbort s
  | (s, .returned) => s
  | (s, .stuck) => s
  | (s, .normal) =>
      if s.done then { s with results := some ("True", "CTF Verifier done! CVE reproduced!") }
      else { s with results := some ("False", "CTF Verifier failed") }

/-- CTF-verifier phase (main.py:412-510); it has no load-from-storage branch. -/
def phaseVerifier (cfg : RunCfg) (o : RunOracle) (s : LoopSt) : LoopSt :=
  if cfg.CTF_VERIFIER then
    verifierLoopFinish (runLoop verifierLoopCond (verifierIter cfg.SANITY_CHECK) o.verifierInputs (loopInit s))
  else s

def initialState : LoopSt :=
  { done := false, builder_feedback := none, critic_feedback := none, tries := 1,
    critic_tries := 1, total_cost := 0, results := none, artifactSuccess := none,
    aborted := false, trace := [], agentCalls := 0, criticCalls := 0 }

/-- The chain of phases before the verifier: an `error` (a `return` inside
`run`, or the budget `ValueError`) short-circuits everything after it. -/
def runExcept (cfg : RunCfg) (o : RunOracle) : Except LoopSt LoopSt :=
  (((((phaseKB cfg o initialState).bind
      (phasePreReq cfg o)).bind
      (phaseRepo cfg o)).bind
      checkRepoBuilt).bind
      (phaseExploit cfg o)).bind
      checkExploitGenerated

/-- `CVEReproducer.run` (main.py:61-522): phases in order, each early `return`
or budget abort ending the run with the state at that point. -/
def runMain (cfg : RunCfg) (o : RunOracle) : LoopSt :=
  match runExcept cfg o with
  | .error s => s
  | .ok s => phaseVerifier cfg o s

/-- The persisted run record (main.py:569-579): the final `results` dict is
augmented with the final `total_cost`. -/
structure FinalRecord where
  results : Option (String × String)
  cost : Cost
  deriving Repr, DecidableEq

def mainEntry (cfg : RunCfg) (o : RunOracle) : FinalRecord :=
  { results := (runMain cfg o).results, cost := (runMain cfg o).total_cost }

/-! ## Command execution sandbox (`src/toolbox/command_ops.py`) -/

/-- Sandbox-relevant process state: the staged environment overlay (the
module-level `env` dict), the process working directory, and the background
process registry (`background_process_list` keys). -/
structure SandboxSt where
  env : List (String × String)
  cwd : String
  background_pids : List Nat
  deriving Repr, DecidableEq

/-- Python dict assignment `d[k] = v`: overwrite in place if the key exists
(keys of a Python dict are unique, so at most one entry matches), else append
at the end (Python dicts preserve insertion order). -/
def dictInsert : List (String × String) → String → String → List (String × String)
  | [], k, v => [(k, v)]
  | p :: tl, k, v => if p.1 == k then (k, v) :: tl else p :: dictInsert tl k v

/-- Python dict lookup `d.get(k)`. -/
def dictLookup (d : List (String × String)) (k : String) : Option String :=
  (d.find? (fun p => p.1 == k)).map (fun p => p.2)

/-- Python `base | overlay` (command_ops.py:125, 164): `base` updated with
every entry of `overlay`. -/
def dictMerge (base overlay : List (String × String)) : List (String × String) :=
  overlay.foldl (fun d p => dictInsert d p.1 p.2) base

/-- Rendering of the overlay inside the confirmation message of
`set_environment_variable` (Python `f"...env_list={env}."`). -/
def envRepr (d : List (String × String)) : String :=
  "\x7b" ++ String.intercalate ", "
    (d.map fun p => "\x27" ++ p.1 ++ "\x27: \x27" ++ p.2 ++ "\x27") ++ "\x7d"

/-- `set_environment_variable` (command_ops.py:54-77): optionally clear the
overlay, stage the key/value, and return a confirmation message displaying
the resulting overlay. -/
def set_environment_variable (s : SandboxSt) (key value : String) (clear : Bool) :
    SandboxSt × String :=
  let e := if clear then [] else s.env
  let e := dictInsert e key value
  ({ s with env := e }, "Success, current env_list=" ++ envRepr e ++ ".")

/-- Outcome of one `subprocess.run` of a foreground command: either the 300s
timeout fired, or the process terminated having written the given stdout and
stderr lines (each line with its trailing newline, as `readlines` yields). -/
inductive CmdOutcome where
  | timedOut
  | completed (stdoutLines stderrLines : List String)

/-- The sentinel returned on `subprocess.TimeoutExpired` (command_ops.py:128). -/
def TIMEOUT_MESSAGE : String :=
  "Timed out! If this command starts a server/anything that expects input, try using execute_command_background"

/-- `get_last_lines` (command_ops.py:197-204): the concatenation of the last
`line_count` lines and the total line count. -/
def get_last_lines (lines : List String) (line_count : Nat) : String × Nat :=
  (String.join (lines.drop (lines.length - line_count)), lines.length)

/-- `get_tail_log` (command_ops.py:206-213). -/
def get_tail_log (stdout_log stderr_log : String) (stdoutLines stderrLines : List String) :
    String :=
  "LOGS for current command\n" ++
  "STDOUT Log File: " ++ stdout_log ++ "\nLast " ++
    toString (min 100 (get_last_lines stdoutLines 100).2) ++ " lines out of " ++
    toString (get_last_lines stdoutLines 100).2 ++ ":\n" ++
    (get_last_lines stdoutLines 100).1 ++ "\n\n" ++
  "STDERR Log File: " ++ stderr_log ++ "\nLast " ++
    toString (min 100 (get_last_lines stderrLines 100).2) ++ " lines out of " ++
    toString (get_last_lines stderrLines 100).2 ++ ":\n" ++
    (get_last_lines stderrLines 100).1 ++ "\n"

/-- `execute_command_foreground` (command_ops.py:97-131).  `runCmd` abstracts
the operating system: it maps the command text and the effective environment
(`os.environ.copy() | env`, command_ops.py:125) to an outcome.  On timeout the
sentinel is returned (never an exception); otherwise the bounded tail of the
two log files. -/
def execute_command_foreground (runCmd : String → List (String × String) → CmdOutcome)
    (base overlay : List (String × String)) (command stdout_log stderr_log : String) : String :=
  match runCmd command (dictMerge base overlay) with
  | .timedOut => TIMEOUT_MESSAGE
  | .completed so se => get_tail_log stdout_log stderr_log so se

/-- Outcome of the `subprocess.run(..., timeout=10)` inside
`execute_find_command`: timeout (raising `subprocess.TimeoutExpired`) or
completion with captured stdout. -/
inductive FindOutcome where
  | timedOut
  | completed (stdout : String)

def simEnvDir : String := "simulation_environments/"

def findCmdString (filename : String) : String :=
  "find ./ -type f -name \x27*" ++ filename ++ "*\x27"

/-- `execute_find_command` (command_ops.py:9-34): save the current directory,
`os.chdir` into the repository directory, run `find`, `os.chdir` back, and
report the files found.  A `none` result models the `TimeoutExpired`
exception propagating to the caller — in that case the `os.chdir(cur_dir)`
restoring the working directory is skipped. -/
def execute_find_command (runFind : String → FindOutcome) (s : SandboxSt)
    (filename repoPath : String) : SandboxSt × Option String :=
  let cur_dir := s.cwd
  let s1 := { s with cwd := s.cwd ++ "/" ++ simEnvDir ++ repoPath }
  match runFind (findCmdString filename) with
  | .timedOut => (s1, none)
  | .completed out =>
      let s2 := { s1 with cwd := cur_dir }
      (s2, some (if pyStrip out == "" then "No files found." else "# Files found:\n" ++ out))

/-- `execute_ls_command` (command_ops.py:36-49): delegates to the foreground
executor with command `ls -a {dir}` under the current overlay. -/
def execute_ls_command (runCmd : String → List (String × String) → CmdOutcome)
    (base : List (String × String)) (s : SandboxSt) (dir stdout_log stderr_log : String) :
    SandboxSt × String :=
  (s, execute_command_foreground runCmd base s.env ("ls -a " ++ dir) stdout_log stderr_log)

/-! ## Predicates and concrete scenarios used by the verification -/

/-- The allow-overrun discipline the code actually implements: outside the
verifier phase a charge's `exception` argument equals the phase's success
(`done`) flag at the moment of the charge; every verifier-phase charge passes
`exception=True`. -/
def EvOK (ev : ChargeEvent) : Prop :=
  ev.allowOverrun = (ev.site.inVerifier || ev.done)

def sumDeltas (l : List ChargeEvent) : Cost :=
  (l.map ChargeEvent.delta).sum

/-- All agent/critic-reported costs of the oracle are nonnegative (they are
API charges). -/
def NonnegOracle (o : RunOracle) : Prop :=
  0 ≤ o.kbCost ∧ 0 ≤ o.prereqCost ∧
  (∀ i ∈ o.repoInputs, 0 ≤ i.agentCost ∧ 0 ≤ i.criticCost) ∧
  (∀ i ∈ o.exploitInputs, 0 ≤ i.agentCost ∧ 0 ≤ i.criticCost) ∧
  (∀ i ∈ o.verifierInputs, 0 ≤ i.verifierCost ∧ 0 ≤ i.sanityCost)

/-- Once the budget `ValueError` has ended the run, the recorded reason is the
cost message and the total is at or past the ceiling. -/
def AbortOK (s : LoopSt) : Prop :=
  s.aborted = true →
    s.results = some ("False", "Cost exceeds maximum limit") ∧ MAX_COST ≤ s.total_cost

/-- A run executing only the repository-build phase (run type with `build`
alone would also enable KB and PRE_REQ; here the knowledge and pre-requisite
artifacts are loaded from storage so that the repo loop is isolated). -/
def cfgRepoOnly : RunCfg :=
  { KB := false, PRE_REQ := false, REPO := true, REPO_CRITIC := true,
    EXPLOIT := false, EXPLOIT_CRITIC := false, CTF_VERIFIER := false, SANITY_CHECK := false }

/-- Oracle for the C1 counterexample: the repo agent reports success at a cost
of 5.00, and the critic replies reject+infeasible. -/
def oracleC1 : RunOracle :=
  { kbCost := 0, kbLoadFound := true, prereqCost := 0, prereqLoadFound := true,
    repoInputs := [{ agentRes := .finished "yes", agentCost := 5, summary := "",
                     critic := { decision := "no", possible := "no", feedback := "fb" },
                     criticCost := 0 }],
    repoLoadFound := false, repoLoaded := "",
    exploitInputs := [], exploitLoadFound := false, exploitLoaded := "",
    verifierInputs := [] }

/-- Oracle for the C5 counterexample: same shape, agent cost 7.00. -/
def oracleC5 : RunOracle :=
  { kbCost := 0, kbLoadFound := true, prereqCost := 0, prereqLoadFound := true,
    repoInputs := [{ agentRes := .finished "yes", agentCost := 7, summary := "",
                     critic := { decision := "no", possible := "no", feedback := "" },
                     criticCost := 0 }],
    repoLoadFound := false, repoLoaded := "",
    exploitInputs := [], exploitLoadFound := false, exploitLoaded := "",
    verifierInputs := [] }

/-- A run whose very first charge (knowledge builder, 5.00) crosses the ceiling. -/
def cfgKBOnly : RunCfg :=
  { KB := true, PRE_REQ := false, REPO := false, REPO_CRITIC := false,
    EXPLOIT := false, EXPLOIT_CRITIC := false, CTF_VERIFIER := false, SANITY_CHECK := false }

def oracleC4 : RunOracle :=
  { kbCost := 5, kbLoadFound := true, prereqCost := 0, prereqLoadFound := true,
    repoInputs := [], repoLoadFound := true, repoLoaded := "yes",
    exploitInputs := [], exploitLoadFound := true, exploitLoaded := "yes",
    verifierInputs := [] }

def oracleC10 : RunOracle :=
  { kbCost := 2, kbLoadFound := true, prereqCost := 4, prereqLoadFound := true,
    repoInputs := [], repoLoadFound := true, repoLoaded := "yes",
    exploitInputs := [], exploitLoadFound := true, exploitLoaded := "yes",
    verifierInputs := [] }

/-- A benign two-phase run with small nonnegative costs, used as the C8 witness. -/
def cfgKBPreReq : RunCfg :=
  { KB := true, PRE_REQ := true, REPO := false, REPO_CRITIC := false,
    EXPLOIT := false, EXPLOIT_CRITIC := false, CTF_VERIFIER := false, SANITY_CHECK := false }

def oracleC8 : RunOracle :=
  { kbCost := 1, kbLoadFound := true, prereqCost := 2, prereqLoadFound := true,
    repoInputs := [], repoLoadFound := true, repoLoaded := "yes",
    exploitInputs := [], exploitLoadFound := true, exploitLoaded := "yes",
    verifierInputs := [] }

/-- A loop state at a fresh loop entry (used by several witnesses). -/
def stFresh : LoopSt := loopInit initialState

/-- Critic reply reject+feasible+feedback and its iteration input (C2 witness). -/
def iterC2 : IterIn :=
  { agentRes := .finished "yes", agentCost := 1, summary := "",
    critic := { decision := "no", possible := "yes", feedback := "retry X" },
    criticCost := 1 }

/-- Iteration input whose critic replies reject+infeasible (C5 witness). -/
def iterC5 : IterIn :=
  { agentRes := .finished "yes", agentCost := 1, summary := "",
    critic := { decision := "no", possible := "no", feedback := "" },
    criticCost := 1 }

/-- A loop state whose critic-round counter has passed its cap (C3 witness). -/
def stCriticSpent : LoopSt := { stFresh with critic_tries := 3, tries := 2 }

/-- The running total always equals the sum of all charged deltas. -/
def TraceSum (s : LoopSt) : Prop :=
  s.total_cost = sumDeltas s.trace

/-- Relation between a loop's critic-round counter and the instrumented count
of critic invocations, relative to the count `c0` at loop entry, together with
the bound the `while` condition enforces. -/
def CriticCount (c0 : Nat) (s : LoopSt) : Prop :=
  s.critic_tries + c0 = s.criticCalls + 1 ∧ s.critic_tries ≤ 3

def NotAborted (s : LoopSt) : Prop :=
  s.aborted = false

/-- Predicates on a phase's output: `Pe` holds when the phase ended the run
(`error`), `Po` when it passed control on (`ok`). -/
def ExceptPhase (Pe Po : LoopSt → Prop) : Except LoopSt LoopSt → Prop
  | .error s => Pe s
  | .ok s => Po s

/-- An operating system in which every command times out. -/
def osAllTimeout : String → List (String × String) → CmdOutcome :=
  fun _ _ => .timedOut

/-- An operating system in which every command prints one line reporting the
value of the environment variable `PROBE` (e.g. `ls` under a locale override
changes its output); used to exhibit environment-dependence. -/
def osEchoProbe : String → List (String × String) → CmdOutcome :=
  fun _ env => .completed [(dictLookup env "PROBE").getD "unset" ++ "\n"] []

/-- An operating system in which every command prints the two lines `a`, `b`. -/
def osFixedOut : String → List (String × String) → CmdOutcome :=
  fun _ _ => .completed ["a\n", "b\n"] []

/-- A `find` subprocess that always exceeds its 10-second timeout. -/
def findAllTimeout : String → FindOutcome :=
  fun _ => .timedOut

/-- A `find` subprocess that finds `./a.c`. -/
def findHit : String → FindOutcome :=
  fun _ => .completed "./a.c\n"

def sandboxA : SandboxSt :=
  { env := [], cwd := "/work", background_pids := [] }

def sandboxB : SandboxSt :=
  { env := [("PROBE", "B")], cwd := "/work", background_pids := [] }

def sandboxC : SandboxSt :=
  { env := [("PROBE", "C")], cwd := "/work", background_pids := [] }

/-! ## Helper lemmas -/

theorem mem_of_append_singleton {l : List ChargeEvent} {e ev : ChargeEvent}
    (h : ev ∈ l ++ [e]) : ev ∈ l ∨ ev = e := by
  rcases List.mem_append.mp h with h | h
  · exact Or.inl h
  · exact Or.inr (List.mem_singleton.mp h)

theorem update_cost_trace {P : ChargeEvent → Prop} {site : ChargeSite} {s : LoopSt}
    {cost : Cost} {exception : Bool}
    (hs : ∀ ev ∈ s.trace, P ev) (he : P (mkEvent site s cost exception)) :
    ∀ ev ∈ ((update_cost site s cost exception).1).trace, P ev := by
  intro ev hev
  rcases mem_of_append_singleton (by simpa [update_cost] using hev) with h | h
  · exact hs _ h
  · exact h ▸ he

theorem afterCharge_trace {P : ChargeEvent → Prop} {site : ChargeSite} {s : LoopSt}
    {cost : Cost} {exception : Bool} {k : LoopSt → LoopSt × IterMode}
    (hs : ∀ ev ∈ s.trace, P ev) (he : P (mkEvent site s cost exception))
    (hk : ∀ ev ∈ ((k (update_cost site s cost exception).1).1).trace, P ev) :
    ∀ ev ∈ ((afterCharge site s cost exception k).1).trace, P ev := by
  unfold afterCharge
  split
  · exact update_cost_trace hs he
  · exact hk

theorem runLoop_trace {α : Type} {cond : LoopSt → Bool} {iter : LoopSt → α → LoopSt × IterMode}
    {P : ChargeEvent → Prop} (Q : α → Prop)
    (hstep : ∀ s i, cond s = true → Q i → (∀ ev ∈ s.trace, P ev) →
      ∀ ev ∈ ((iter s i).1).trace, P ev) :
    ∀ (inps : List α), (∀ i ∈ inps, Q i) → ∀ s, (∀ ev ∈ s.trace, P ev) →
      ∀ ev ∈ ((runLoop cond iter inps s).1).trace, P ev := by
  intro inps
  induction inps with
  | nil =>
      intro _ s hs
      unfold runLoop
      split <;> exact hs
  | cons i rest ih =>
      intro hQ s hs
      unfold runLoop
      split
      · rename_i hcond
        have hs' : ∀ ev ∈ ((iter s i).1).trace, P ev :=
          hstep s i hcond (hQ i (by simp)) hs
        rcases hit : iter s i with ⟨s', m⟩
        rw [hit] at hs'
        cases m with
        | cont => exact ih (fun j hj => hQ j (by simp [hj])) s' hs'
        | ret => exact hs'
        | abort => exact hs'
      · exact hs

theorem runLoop_state {α : Type} {cond : LoopSt → Bool} {iter : LoopSt → α → LoopSt × IterMode}
    {P : LoopSt → Prop}
    (hstep : ∀ s i, cond s = true → P s → P ((iter s i).1)) :
    ∀ (inps : List α) (s : LoopSt), P s → P ((runLoop cond iter inps s).1) := by
  intro inps
  induction inps with
  | nil =>
      intro s hs
      unfold runLoop
      split <;> exact hs
  | cons i rest ih =>
      intro s hs
      unfold runLoop
      split
      · rename_i hcond
        have hs' : P ((iter s i).1) := hstep s i hcond hs
        rcases hit : iter s i with ⟨s', m⟩
        rw [hit] at hs'
        cases m with
        | cont => exact ih s' hs'
        | ret => exact hs'
        | abort => exact hs'
      · exact hs

theorem runLoop_abort_cost {α : Type} (cond : LoopSt → Bool)
    {iter : LoopSt → α → LoopSt × IterMode}
    (habort : ∀ s i, (iter s i).2 = .abort → MAX_COST ≤ ((iter s i).1).total_cost) :
    ∀ (inps : List α) (s : LoopSt), (runLoop cond iter inps s).2 = .aborted →
      MAX_COST ≤ ((runLoop cond iter inps s).1).total_cost := by
  intro inps
  induction inps with
  | nil =>
      intro s h
      unfold runLoop at h ⊢
      split at h <;> simp_all
  | cons i rest ih =>
      intro s h
      unfold runLoop at h ⊢
      by_cases hcond : cond s = true
      · rw [if_pos hcond] at h ⊢
        rcases hit : iter s i with ⟨s', m⟩
        rw [hit] at h
        cases m with
        | cont => exact ih s' h
        | ret => simp at h
        | abort =>
            have hm := habort s i
            rw [hit] at hm
            simpa using hm rfl
      · rw [if_neg hcond] at h
        simp at h

theorem evok_false (site : ChargeSite) (s : LoopSt) (cost : Cost)
    (hv : site.inVerifier = false) (hd : s.done = false) :
    EvOK (mkEvent site s cost false) := by
  simp [EvOK, mkEvent, hv, hd]

theorem evok_done (site : ChargeSite) (s : LoopSt) (cost : Cost)
    (hv : site.inVerifier = false) :
    EvOK (mkEvent site s cost s.done) := by
  simp [EvOK, mkEvent, hv]

theorem evok_true (site : ChargeSite) (s : LoopSt) (cost : Cost)
    (hv : site.inVerifier = true) :
    EvOK (mkEvent site s cost true) := by
  simp [EvOK, mkEvent, hv]

theorem repoIter_evok (c : Bool) (s : LoopSt) (i : IterIn) (hdone : s.done = false)
    (hs : ∀ ev ∈ s.trace, EvOK ev) :
    ∀ ev ∈ ((repoIter c s i).1).trace, EvOK ev := by
  obtain ⟨ar, ac, sm, cr, cc⟩ := i
  cases ar <;>
    · simp only [repoIter]
      repeat' split
      all_goals
        first
        | exact afterCharge_trace hs (evok_false _ _ _ rfl hdone)
            (update_cost_trace hs (evok_false _ _ _ rfl hdone))
        | exact afterCharge_trace hs (evok_done _ _ _ rfl)
            (update_cost_trace hs (evok_done _ _ _ rfl))
        | exact afterCharge_trace hs (evok_done _ _ _ rfl)
            (afterCharge_trace (update_cost_trace hs (evok_done _ _ _ rfl)) (evok_done _ _ _ rfl)
              (update_cost_trace (update_cost_trace hs (evok_done _ _ _ rfl))
                (evok_done _ _ _ rfl)))

theorem exploitIter_evok (c : Bool) (s : LoopSt) (i : IterIn) (hdone : s.done = false)
    (hs : ∀ ev ∈ s.trace, EvOK ev) :
    ∀ ev ∈ ((exploitIter c s i).1).trace, EvOK ev := by
  obtain ⟨ar, ac, sm, cr, cc⟩ := i
  cases ar <;>
    · simp only [exploitIter]
      repeat' split
      all_goals
        first
        | exact hs
        | exact afterCharge_trace hs (evok_false _ _ _ rfl hdone)
            (update_cost_trace hs (evok_false _ _ _ rfl hdone))
        | exact afterCharge_trace hs (evok_done _ _ _ rfl)
            (update_cost_trace hs (evok_done _ _ _ rfl))
        | exact afterCharge_trace hs (evok_done _ _ _ rfl)
            (afterCharge_trace (update_cost_trace hs (evok_done _ _ _ rfl)) (evok_done _ _ _ rfl)
              (update_cost_trace (update_cost_trace hs (evok_done _ _ _ rfl))
                (evok_done _ _ _ rfl)))

theorem verifierIter_evok (c : Bool) (s : LoopSt) (i : VIterIn)
    (hs : ∀ ev ∈ s.trace, EvOK ev) :
    ∀ ev ∈ ((verifierIter c s i).1).trace, EvOK ev := by
  simp only [verifierIter]
  repeat' split
  all_goals
    first
    | exact hs
    | exact afterCharge_trace hs (evok_true _ _ _ rfl)
        (update_cost_trace hs (evok_true _ _ _ rfl))
    | exact afterCharge_trace hs (evok_true _ _ _ rfl)
        (afterCharge_trace (update_cost_trace hs (evok_true _ _ _ rfl)) (evok_true _ _ _ rfl)
          (update_cost_trace (update_cost_trace hs (evok_true _ _ _ rfl))
            (evok_true _ _ _ rfl)))

theorem afterCharge_state {P : LoopSt → Prop} {site : ChargeSite} {s : LoopSt}
    {cost : Cost} {exception : Bool} {k : LoopSt → LoopSt × IterMode}
    (hcharged : P ((update_cost site s cost exception).1))
    (hk : P ((k (update_cost site s cost exception).1).1)) :
    P ((afterCharge site s cost exception k).1) := by
  unfold afterCharge
  split
  · exact hcharged
  · exact hk

theorem afterCharge_abort {site : ChargeSite} {s : LoopSt} {cost : Cost} {exception : Bool}
    {k : LoopSt → LoopSt × IterMode}
    (hk : (k (update_cost site s cost exception).1).2 = .abort →
      MAX_COST ≤ ((k (update_cost site s cost exception).1).1).total_cost) :
    (afterCharge site s cost exception k).2 = .abort →
      MAX_COST ≤ ((afterCharge site s cost exception k).1).total_cost := by
  unfold afterCharge
  split
  · rename_i hr
    intro _
    simp only [update_cost, Bool.and_eq_true, decide_eq_true_eq] at hr ⊢
    exact hr.1
  · exact hk

theorem sumDeltas_append (l : List ChargeEvent) (e : ChargeEvent) :
    sumDeltas (l ++ [e]) = sumDeltas l + e.delta := by
  simp [sumDeltas]

theorem update_cost_sum {site : ChargeSite} {s : LoopSt} {cost : Cost} {exception : Bool}
    (h : TraceSum s) :
    TraceSum ((update_cost site s cost exception).1) := by
  simp only [TraceSum, update_cost] at h ⊢
  simp [sumDeltas_append, mkEvent, h]

theorem repoIter_sum (c : Bool) (s : LoopSt) (i : IterIn) (h : TraceSum s) :
    TraceSum ((repoIter c s i).1) := by
  obtain ⟨ar, ac, sm, cr, cc⟩ := i
  cases ar <;>
    · simp only [repoIter]
      repeat' split
      all_goals
        first
        | exact h
        | exact afterCharge_state (update_cost_sum h) (update_cost_sum h)
        | exact afterCharge_state (update_cost_sum h)
            (afterCharge_state (update_cost_sum (update_cost_sum h))
              (update_cost_sum (update_cost_sum h)))

theorem exploitIter_sum (c : Bool) (s : LoopSt) (i : IterIn) (h : TraceSum s) :
    TraceSum ((exploitIter c s i).1) := by
  obtain ⟨ar, ac, sm, cr, cc⟩ := i
  cases ar <;>
    · simp only [exploitIter]
      repeat' split
      all_goals
        first
        | exact h
        | exact afterCharge_state (update_cost_sum h) (update_cost_sum h)
        | exact afterCharge_state (update_cost_sum h)
            (afterCharge_state (update_cost_sum (update_cost_sum h))
              (update_cost_sum (update_cost_sum h)))

theorem verifierIter_sum (c : Bool) (s : LoopSt) (i : VIterIn) (h : TraceSum s) :
    TraceSum ((verifierIter c s i).1) := by
  simp only [verifierIter]
  repeat' split
  all_goals
    first
    | exact h
    | exact afterCharge_state (update_cost_sum h) (update_cost_sum h)
    | exact afterCharge_state (update_cost_sum h)
        (afterCharge_state (update_cost_sum (update_cost_sum h))
          (update_cost_sum (update_cost_sum h)))

theorem repoIter_notAborted (c : Bool) (s : LoopSt) (i : IterIn) (h : NotAborted s) :
    NotAborted ((repoIter c s i).1) := by
  obtain ⟨ar, ac, sm, cr, cc⟩ := i
  cases ar <;>
    · simp only [repoIter]
      repeat' split
      all_goals
        first
        | exact h
        | exact afterCharge_state h h
        | exact afterCharge_state h (afterCharge_state h h)

theorem exploitIter_notAborted (c : Bool) (s : LoopSt) (i : IterIn) (h : NotAborted s) :
    NotAborted ((exploitIter c s i).1) := by
  obtain ⟨ar, ac, sm, cr, cc⟩ := i
  cases ar <;>
    · simp only [exploitIter]
      repeat' split
      all_goals
        first
        | exact h
        | exact afterCharge_state h h
        | exact afterCharge_state h (afterCharge_state h h)

theorem verifierIter_notAborted (c : Bool) (s : LoopSt) (i : VIterIn) (h : NotAborted s) :
    NotAborted ((verifierIter c s i).1) := by
  simp only [verifierIter]
  repeat' split
  all_goals
    first
    | exact h
    | exact afterCharge_state h h
    | exact afterCharge_state h (afterCharge_state h h)

theorem repoIter_abort_cost (c : Bool) (s : LoopSt) (i : IterIn) :
    (repoIter c s i).2 = .abort → MAX_COST ≤ ((repoIter c s i).1).total_cost := by
  obtain ⟨ar, ac, sm, cr, cc⟩ := i
  cases ar <;>
    · simp only [repoIter]
      repeat' split
      all_goals
        first
        | exact afterCharge_abort (afterCharge_abort (by simp))
        | exact afterCharge_abort (by simp)
        | (intro h; simp at h)

theorem exploitIter_abort_cost (c : Bool) (s : LoopSt) (i : IterIn) :
    (exploitIter c s i).2 = .abort → MAX_COST ≤ ((exploitIter c s i).1).total_cost := by
  obtain ⟨ar, ac, sm, cr, cc⟩ := i
  cases ar <;>
    · simp only [exploitIter]
      repeat' split
      all_goals
        first
        | exact afterCharge_abort (afterCharge_abort (by simp))
        | exact afterCharge_abort (by simp)
        | (intro h; simp at h)

theorem verifierIter_abort_cost (c : Bool) (s : LoopSt) (i : VIterIn) :
    (verifierIter c s i).2 = .abort → MAX_COST ≤ ((verifierIter c s i).1).total_cost := by
  simp only [verifierIter]
  repeat' split
  all_goals
    first
    | exact afterCharge_abort (afterCharge_abort (by simp))
    | exact afterCharge_abort (by simp)
    | (intro h; simp at h)

theorem repoIter_critic (c : Bool) (c0 : Nat) (s : LoopSt) (i : IterIn)
    (hle : s.critic_tries ≤ 2) (h : CriticCount c0 s) :
    CriticCount c0 ((repoIter c s i).1) := by
  obtain ⟨h1, h2⟩ := h
  have h : CriticCount c0 s := ⟨h1, h2⟩
  have hb : (s.critic_tries + 1) + c0 = (s.criticCalls + 1) + 1 ∧ s.critic_tries + 1 ≤ 3 :=
    ⟨by omega, by omega⟩
  obtain ⟨ar, ac, sm, cr, cc⟩ := i
  cases ar <;>
    · simp only [repoIter]
      repeat' split
      all_goals
        first
        | exact h
        | exact hb
        | exact afterCharge_state h h
        | exact afterCharge_state hb hb
        | exact afterCharge_state h (afterCharge_state h h)
        | exact afterCharge_state hb (afterCharge_state hb hb)

theorem exploitIter_critic (c : Bool) (c0 : Nat) (s : LoopSt) (i : IterIn)
    (hle : s.critic_tries ≤ 2) (h : CriticCount c0 s) :
    CriticCount c0 ((exploitIter c s i).1) := by
  obtain ⟨h1, h2⟩ := h
  have h : CriticCount c0 s := ⟨h1, h2⟩
  have hb : (s.critic_tries + 1) + c0 = (s.criticCalls + 1) + 1 ∧ s.critic_tries + 1 ≤ 3 :=
    ⟨by omega, by omega⟩
  obtain ⟨ar, ac, sm, cr, cc⟩ := i
  cases ar <;>
    · simp only [exploitIter]
      repeat' split
      all_goals
        first
        | exact h
        | exact hb
        | exact afterCharge_state h h
        | exact afterCharge_state hb hb
        | exact afterCharge_state h (afterCharge_state h h)
        | exact afterCharge_state hb (afterCharge_state hb hb)

theorem repoIter_nonneg (c : Bool) (s : LoopSt) (i : IterIn)
    (hac : 0 ≤ i.agentCost) (hcc : 0 ≤ i.criticCost)
    (hs : ∀ ev ∈ s.trace, 0 ≤ ev.delta) :
    ∀ ev ∈ ((repoIter c s i).1).trace, 0 ≤ ev.delta := by
  obtain ⟨ar, ac, sm, cr, cc⟩ := i
  cases ar <;>
    · simp only [repoIter]
      repeat' split
      all_goals
        first
        | exact hs
        | exact afterCharge_trace hs hac (update_cost_trace hs hac)
        | exact afterCharge_trace hs hcc
            (afterCharge_trace (update_cost_trace hs hcc) hac
              (update_cost_trace (update_cost_trace hs hcc) hac))

theorem exploitIter_nonneg (c : Bool) (s : LoopSt) (i : IterIn)
    (hac : 0 ≤ i.agentCost) (hcc : 0 ≤ i.criticCost)
    (hs : ∀ ev ∈ s.trace, 0 ≤ ev.delta) :
    ∀ ev ∈ ((exploitIter c s i).1).trace, 0 ≤ ev.delta := by
  obtain ⟨ar, ac, sm, cr, cc⟩ := i
  cases ar <;>
    · simp only [exploitIter]
      repeat' split
      all_goals
        first
        | exact hs
        | exact afterCharge_trace hs hac (update_cost_trace hs hac)
        | exact afterCharge_trace hs hcc
            (afterCharge_trace (update_cost_trace hs hcc) hac
              (update_cost_trace (update_cost_trace hs hcc) hac))

theorem verifierIter_nonneg (c : Bool) (s : LoopSt) (i : VIterIn)
    (hvc : 0 ≤ i.verifierCost) (hsc : 0 ≤ i.sanityCost)
    (hs : ∀ ev ∈ s.trace, 0 ≤ ev.delta) :
    ∀ ev ∈ ((verifierIter c s i).1).trace, 0 ≤ ev.delta := by
  simp only [verifierIter]
  repeat' split
  all_goals
    first
    | exact hs
    | exact afterCharge_trace hs hvc (update_cost_trace hs hvc)
    | exact afterCharge_trace hs hsc
        (afterCharge_trace (update_cost_trace hs hsc) hvc
          (update_cost_trace (update_cost_trace hs hsc) hvc))

theorem repoLoopCond_done {s : LoopSt} (h : repoLoopCond s = true) : s.done = false := by
  simp only [repoLoopCond, Bool.and_eq_true, Bool.not_eq_true'] at h
  exact h.1.1

theorem repoLoopCond_critic {s : LoopSt} (h : repoLoopCond s = true) : s.critic_tries ≤ 2 := by
  simp only [repoLoopCond, Bool.and_eq_true, decide_eq_true_eq, max_critic_tries] at h
  exact h.2

theorem exploitLoopCond_done {s : LoopSt} (h : exploitLoopCond s = true) : s.done = false := by
  simp only [exploitLoopCond, Bool.and_eq_true, Bool.not_eq_true'] at h
  exact h.1.1

theorem exploitLoopCond_critic {s : LoopSt} (h : exploitLoopCond s = true) :
    s.critic_tries ≤ 2 := by
  simp only [exploitLoopCond, Bool.and_eq_true, decide_eq_true_eq,
    max_exploit_critic_tries] at h
  exact h.2

theorem exceptPhase_mono {Pe Po Po' : LoopSt → Prop} {e : Except LoopSt LoopSt}
    {f : LoopSt → Except LoopSt LoopSt} (he : ExceptPhase Pe Po e)
    (hf : ∀ s, Po s → ExceptPhase Pe Po' (f s)) : ExceptPhase Pe Po' (e.bind f) := by
  cases e
  · exact he
  · exact hf _ he

theorem phaseKB_evok (cfg : RunCfg) (o : RunOracle) {s : LoopSt} (hdone : s.done = false)
    (hs : ∀ ev ∈ s.trace, EvOK ev) :
    ExceptPhase (fun t => ∀ ev ∈ t.trace, EvOK ev)
      (fun t => (∀ ev ∈ t.trace, EvOK ev) ∧ t.done = false) (phaseKB cfg o s) := by
  simp only [phaseKB]
  repeat' split
  all_goals
    first
    | exact update_cost_trace hs (evok_false _ _ _ rfl hdone)
    | exact ⟨update_cost_trace hs (evok_false _ _ _ rfl hdone), hdone⟩
    | exact hs
    | exact ⟨hs, hdone⟩

theorem phasePreReq_evok (cfg : RunCfg) (o : RunOracle) {s : LoopSt} (hdone : s.done = false)
    (hs : ∀ ev ∈ s.trace, EvOK ev) :
    ExceptPhase (fun t => ∀ ev ∈ t.trace, EvOK ev)
      (fun t => (∀ ev ∈ t.trace, EvOK ev) ∧ t.done = false) (phasePreReq cfg o s) := by
  simp only [phasePreReq]
  repeat' split
  all_goals
    first
    | exact update_cost_trace hs (evok_false _ _ _ rfl hdone)
    | exact ⟨update_cost_trace hs (evok_false _ _ _ rfl hdone), hdone⟩
    | exact hs
    | exact ⟨hs, hdone⟩

theorem phaseRepo_evok (cfg : RunCfg) (o : RunOracle) {s : LoopSt}
    (hs : ∀ ev ∈ s.trace, EvOK ev) :
    ExceptPhase (fun t => ∀ ev ∈ t.trace, EvOK ev) (fun t => ∀ ev ∈ t.trace, EvOK ev)
      (phaseRepo cfg o s) := by
  have hloop : ∀ ev ∈ ((runLoop repoLoopCond (repoIter cfg.REPO_CRITIC) o.repoInputs
      (loopInit s)).1).trace, EvOK ev :=
    runLoop_trace (fun _ => True)
      (fun s' i hcond _ hs' => repoIter_evok _ s' i (repoLoopCond_done hcond) hs')
      o.repoInputs (fun _ _ => trivial) (loopInit s) hs
  unfold phaseRepo
  split
  · rcases hlr : runLoop repoLoopCond (repoIter cfg.REPO_CRITIC) o.repoInputs (loopInit s)
      with ⟨t, m⟩
    rw [hlr] at hloop
    cases m <;> simp only [repoLoopFinish] <;>
      first
      | (split
         · exact hloop
         · exact hloop)
      | exact hloop
  · split
    · exact hs
    · exact hs

theorem phaseExploit_evok (cfg : RunCfg) (o : RunOracle) {s : LoopSt}
    (hs : ∀ ev ∈ s.trace, EvOK ev) :
    ExceptPhase (fun t => ∀ ev ∈ t.trace, EvOK ev) (fun t => ∀ ev ∈ t.trace, EvOK ev)
      (phaseExploit cfg o s) := by
  have hloop : ∀ ev ∈ ((runLoop exploitLoopCond (exploitIter cfg.EXPLOIT_CRITIC)
      o.exploitInputs (loopInit s)).1).trace, EvOK ev :=
    runLoop_trace (fun _ => True)
      (fun s' i hcond _ hs' => exploitIter_evok _ s' i (exploitLoopCond_done hcond) hs')
      o.exploitInputs (fun _ _ => trivial) (loopInit s) hs
  unfold phaseExploit
  split
  · rcases hlr : runLoop exploitLoopCond (exploitIter cfg.EXPLOIT_CRITIC) o.exploitInputs
      (loopInit s) with ⟨t, m⟩
    rw [hlr] at hloop
    cases m <;> simp only [exploitLoopFinish] <;>
      first
      | (split
         · exact hloop
         · exact hloop)
      | exact hloop
  · split
    · exact hs
    · exact hs

theorem phaseVerifier_evok (cfg : RunCfg) (o : RunOracle) {s : LoopSt}
    (hs : ∀ ev ∈ s.trace, EvOK ev) :
    ∀ ev ∈ (phaseVerifier cfg o s).trace, EvOK ev := by
  have hloop : ∀ ev ∈ ((runLoop verifierLoopCond (verifierIter cfg.SANITY_CHECK)
      o.verifierInputs (loopInit s)).1).trace, EvOK ev :=
    runLoop_trace (fun _ => True)
      (fun s' i _ _ hs' => verifierIter_evok _ s' i hs')
      o.verifierInputs (fun _ _ => trivial) (loopInit s) hs
  unfold phaseVerifier
  split
  · rcases hlr : runLoop verifierLoopCond (verifierIter cfg.SANITY_CHECK) o.verifierInputs
      (loopInit s) with ⟨t, m⟩
    rw [hlr] at hloop
    cases m <;> simp only [verifierLoopFinish] <;>
      first
      | (split
         · exact hloop
         · exact hloop)
      | exact hloop
  · exact hs

theorem checkRepoBuilt_evok {s : LoopSt} (hs : ∀ ev ∈ s.trace, EvOK ev) :
    ExceptPhase (fun t => ∀ ev ∈ t.trace, EvOK ev) (fun t => ∀ ev ∈ t.trace, EvOK ev)
      (checkRepoBuilt s) := by
  unfold checkRepoBuilt
  split
  · exact hs
  · exact hs

theorem checkExploitGenerated_evok {s : LoopSt} (hs : ∀ ev ∈ s.trace, EvOK ev) :
    ExceptPhase (fun t => ∀ ev ∈ t.trace, EvOK ev) (fun t => ∀ ev ∈ t.trace, EvOK ev)
      (checkExploitGenerated s) := by
  unfold checkExploitGenerated
  split
  · exact hs
  · exact hs

theorem runExcept_evok (cfg : RunCfg) (o : RunOracle) :
    ExceptPhase (fun t => ∀ ev ∈ t.trace, EvOK ev) (fun t => ∀ ev ∈ t.trace, EvOK ev)
      (runExcept cfg o) := by
  have h0 : ∀ ev ∈ initialState.trace, EvOK ev := by simp [initialState]
  exact exceptPhase_mono (exceptPhase_mono (exceptPhase_mono (exceptPhase_mono
    (exceptPhase_mono (phaseKB_evok cfg o rfl h0)
      (fun s h => phasePreReq_evok cfg o h.2 h.1))
      (fun s h => phaseRepo_evok cfg o h.1))
      (fun s h => checkRepoBuilt_evok h))
      (fun s h => phaseExploit_evok cfg o h))
      (fun s h => checkExploitGenerated_evok h)

theorem runMain_evok (cfg : RunCfg) (o : RunOracle) :
    ∀ ev ∈ (runMain cfg o).trace, EvOK ev := by
  have hrun := runExcept_evok cfg o
  unfold runMain
  rcases hre : runExcept cfg o with t | t <;> rw [hre] at hrun
  · exact hrun
  · exact phaseVerifier_evok cfg o hrun

theorem abortOK_of_notAborted {s : LoopSt} (h : NotAborted s) : AbortOK s :=
  fun hab => absurd hab (by simp [NotAborted] at h; simp [h])

theorem phaseKB_sum (cfg : RunCfg) (o : RunOracle) {s : LoopSt} (h : TraceSum s) :
    ExceptPhase TraceSum TraceSum (phaseKB cfg o s) := by
  simp only [phaseKB]
  repeat' split
  all_goals
    first
    | exact update_cost_sum h
    | exact h

theorem phasePreReq_sum (cfg : RunCfg) (o : RunOracle) {s : LoopSt} (h : TraceSum s) :
    ExceptPhase TraceSum TraceSum (phasePreReq cfg o s) := by
  simp only [phasePreReq]
  repeat' split
  all_goals
    first
    | exact update_cost_sum h
    | exact h

theorem phaseRepo_sum (cfg : RunCfg) (o : RunOracle) {s : LoopSt} (h : TraceSum s) :
    ExceptPhase TraceSum TraceSum (phaseRepo cfg o s) := by
  have hloop : TraceSum ((runLoop repoLoopCond (repoIter cfg.REPO_CRITIC) o.repoInputs
      (loopInit s)).1) :=
    runLoop_state (fun s' i _ hp => repoIter_sum _ s' i hp) o.repoInputs (loopInit s) h
  unfold phaseRepo
  split
  · rcases hlr : runLoop repoLoopCond (repoIter cfg.REPO_CRITIC) o.repoInputs (loopInit s)
      with ⟨t, m⟩
    rw [hlr] at hloop
    cases m <;> simp only [repoLoopFinish] <;>
      first
      | (split
         · exact hloop
         · exact hloop)
      | exact hloop
  · split
    · exact h
    · exact h

theorem phaseExploit_sum (cfg : RunCfg) (o : RunOracle) {s : LoopSt} (h : TraceSum s) :
    ExceptPhase TraceSum TraceSum (phaseExploit cfg o s) := by
  have hloop : TraceSum ((runLoop exploitLoopCond (exploitIter cfg.EXPLOIT_CRITIC)
      o.exploitInputs (loopInit s)).1) :=
    runLoop_state (fun s' i _ hp => exploitIter_sum _ s' i hp) o.exploitInputs (loopInit s) h
  unfold phaseExploit
  split
  · rcases hlr : runLoop exploitLoopCond (exploitIter cfg.EXPLOIT_CRITIC) o.exploitInputs
      (loopInit s) with ⟨t, m⟩
    rw [hlr] at hloop
    cases m <;> simp only [exploitLoopFinish] <;>
      first
      | (split
         · exact hloop
         · exact hloop)
      | exact hloop
  · split
    · exact h
    · exact h

theorem phaseVerifier_sum (cfg : RunCfg) (o : RunOracle) {s : LoopSt} (h : TraceSum s) :
    TraceSum (phaseVerifier cfg o s) := by
  have hloop : TraceSum ((runLoop verifierLoopCond (verifierIter cfg.SANITY_CHECK)
      o.verifierInputs (loopInit s)).1) :=
    runLoop_state (fun s' i _ hp => verifierIter_sum _ s' i hp) o.verifierInputs (loopInit s) h
  unfold phaseVerifier
  split
  · rcases hlr : runLoop verifierLoopCond (verifierIter cfg.SANITY_CHECK) o.verifierInputs
      (loopInit s) with ⟨t, m⟩
    rw [hlr] at hloop
    cases m <;> simp only [verifierLoopFinish] <;>
      first
      | (split
         · exact hloop
         · exact hloop)
      | exact hloop
  · exact h

theorem checkRepoBuilt_sum {s : LoopSt} (h : TraceSum s) :
    ExceptPhase TraceSum TraceSum (checkRepoBuilt s) := by
  unfold checkRepoBuilt
  split
  · exact h
  · exact h

theorem checkExploitGenerated_sum {s : LoopSt} (h : TraceSum s) :
    ExceptPhase TraceSum TraceSum (checkExploitGenerated s) := by
  unfold checkExploitGenerated
  split
  · exact h
  · exact h

theorem runMain_sum (cfg : RunCfg) (o : RunOracle) : TraceSum (runMain cfg o) := by
  have h0 : TraceSum initialState := by simp [TraceSum, initialState, sumDeltas]
  have hrun : ExceptPhase TraceSum TraceSum (runExcept cfg o) :=
    exceptPhase_mono (exceptPhase_mono (exceptPhase_mono (exceptPhase_mono
      (exceptPhase_mono (phaseKB_sum cfg o h0)
        (fun s h => phasePreReq_sum cfg o h))
        (fun s h => phaseRepo_sum cfg o h))
        (fun s h => checkRepoBuilt_sum h))
        (fun s h => phaseExploit_sum cfg o h))
        (fun s h => checkExploitGenerated_sum h)
  unfold runMain
  rcases hre : runExcept cfg o with t | t <;> rw [hre] at hrun
  · exact hrun
  · exact phaseVerifier_sum cfg o hrun

theorem phaseKB_abort (cfg : RunCfg) (o : RunOracle) {s : LoopSt} (h : NotAborted s) :
    ExceptPhase AbortOK NotAborted (phaseKB cfg o s) := by
  simp only [phaseKB]
  repeat' split
  all_goals
    first
    | exact h
    | exact abortOK_of_notAborted h
    | (rename_i hr
       exact fun _ => ⟨rfl, by
         simp only [update_cost, Bool.and_eq_true, decide_eq_true_eq] at hr
         exact hr.1⟩)

theorem phasePreReq_abort (cfg : RunCfg) (o : RunOracle) {s : LoopSt} (h : NotAborted s) :
    ExceptPhase AbortOK NotAborted (phasePreReq cfg o s) := by
  simp only [phasePreReq]
  repeat' split
  all_goals
    first
    | exact h
    | exact abortOK_of_notAborted h
    | (rename_i hr
       exact fun _ => ⟨rfl, by
         simp only [update_cost, Bool.and_eq_true, decide_eq_true_eq] at hr
         exact hr.1⟩)

theorem phaseRepo_abort (cfg : RunCfg) (o : RunOracle) {s : LoopSt} (h : NotAborted s) :
    ExceptPhase AbortOK NotAborted (phaseRepo cfg o s) := by
  have hNA : NotAborted ((runLoop repoLoopCond (repoIter cfg.REPO_CRITIC) o.repoInputs
      (loopInit s)).1) :=
    runLoop_state (fun s' i _ hp => repoIter_notAborted _ s' i hp) o.repoInputs (loopInit s) h
  have hAC := runLoop_abort_cost repoLoopCond
    (fun s' i => repoIter_abort_cost cfg.REPO_CRITIC s' i) o.repoInputs (loopInit s)
  unfold phaseRepo
  split
  · rcases hlr : runLoop repoLoopCond (repoIter cfg.REPO_CRITIC) o.repoInputs (loopInit s)
      with ⟨t, m⟩
    rw [hlr] at hNA hAC
    cases m
    · simp only [repoLoopFinish]
      split
      · exact hNA
      · exact abortOK_of_notAborted hNA
    · exact abortOK_of_notAborted hNA
    · exact fun _ => ⟨rfl, by simpa using hAC rfl⟩
    · exact abortOK_of_notAborted hNA
  · split
    · exact h
    · exact abortOK_of_notAborted h

theorem phaseExploit_abort (cfg : RunCfg) (o : RunOracle) {s : LoopSt} (h : NotAborted s) :
    ExceptPhase AbortOK NotAborted (phaseExploit cfg o s) := by
  have hNA : NotAborted ((runLoop exploitLoopCond (exploitIter cfg.EXPLOIT_CRITIC)
      o.exploitInputs (loopInit s)).1) :=
    runLoop_state (fun s' i _ hp => exploitIter_notAborted _ s' i hp) o.exploitInputs
      (loopInit s) h
  have hAC := runLoop_abort_cost exploitLoopCond
    (fun s' i => exploitIter_abort_cost cfg.EXPLOIT_CRITIC s' i) o.exploitInputs (loopInit s)
  unfold phaseExploit
  split
  · rcases hlr : runLoop exploitLoopCond (exploitIter cfg.EXPLOIT_CRITIC) o.exploitInputs
      (loopInit s) with ⟨t, m⟩
    rw [hlr] at hNA hAC
    cases m
    · simp only [exploitLoopFinish]
      split
      · exact hNA
      · exact abortOK_of_notAborted hNA
    · exact abortOK_of_notAborted hNA
    · exact fun _ => ⟨rfl, by simpa using hAC rfl⟩
    · exact abortOK_of_notAborted hNA
  · split
    · exact h
    · exact abortOK_of_notAborted h

theorem phaseVerifier_abort (cfg : RunCfg) (o : RunOracle) {s : LoopSt} (h : NotAborted s) :
    AbortOK (phaseVerifier cfg o s) := by
  have hNA : NotAborted ((runLoop verifierLoopCond (verifierIter cfg.SANITY_CHECK)
      o.verifierInputs (loopInit s)).1) :=
    runLoop_state (fun s' i _ hp => verifierIter_notAborted _ s' i hp) o.verifierInputs
      (loopInit s) h
  have hAC := runLoop_abort_cost verifierLoopCond
    (fun s' i => verifierIter_abort_cost cfg.SANITY_CHECK s' i) o.verifierInputs (loopInit s)
  unfold phaseVerifier
  split
  · rcases hlr : runLoop verifierLoopCond (verifierIter cfg.SANITY_CHECK) o.verifierInputs
      (loopInit s) with ⟨t, m⟩
    rw [hlr] at hNA hAC
    cases m
    · simp only [verifierLoopFinish]
      split
      · exact abortOK_of_notAborted hNA
      · exact abortOK_of_notAborted hNA
    · exact abortOK_of_notAborted hNA
    · exact fun _ => ⟨rfl, by simpa using hAC rfl⟩
    · exact abortOK_of_notAborted hNA
  · exact abortOK_of_notAborted h

theorem checkRepoBuilt_abort {s : LoopSt} (h : NotAborted s) :
    ExceptPhase AbortOK NotAborted (checkRepoBuilt s) := by
  unfold checkRepoBuilt
  split
  · exact abortOK_of_notAborted h
  · exact h

theorem checkExploitGenerated_abort {s : LoopSt} (h : NotAborted s) :
    ExceptPhase AbortOK NotAborted (checkExploitGenerated s) := by
  unfold checkExploitGenerated
  split
  · exact abortOK_of_notAborted h
  · exact h

theorem runMain_abort (cfg : RunCfg) (o : RunOracle) : AbortOK (runMain cfg o) := by
  have hrun : ExceptPhase AbortOK NotAborted (runExcept cfg o) :=
    exceptPhase_mono (exceptPhase_mono (exceptPhase_mono (exceptPhase_mono
      (exceptPhase_mono (phaseKB_abort cfg o rfl)
        (fun s h => phasePreReq_abort cfg o h))
        (fun s h => phaseRepo_abort cfg o h))
        (fun s h => checkRepoBuilt_abort h))
        (fun s h => phaseExploit_abort cfg o h))
        (fun s h => checkExploitGenerated_abort h)
  unfold runMain
  rcases hre : runExcept cfg o with t | t <;> rw [hre] at hrun
  · exact hrun
  · exact phaseVerifier_abort cfg o hrun

theorem phaseKB_nonneg (cfg : RunCfg) (o : RunOracle) {s : LoopSt} (hkb : 0 ≤ o.kbCost)
    (hs : ∀ ev ∈ s.trace, 0 ≤ ev.delta) :
    ExceptPhase (fun t => ∀ ev ∈ t.trace, 0 ≤ ev.delta)
      (fun t => ∀ ev ∈ t.trace, 0 ≤ ev.delta) (phaseKB cfg o s) := by
  simp only [phaseKB]
  repeat' split
  all_goals
    first
    | exact update_cost_trace hs hkb
    | exact hs

theorem phasePreReq_nonneg (cfg : RunCfg) (o : RunOracle) {s : LoopSt}
    (hpr : 0 ≤ o.prereqCost) (hs : ∀ ev ∈ s.trace, 0 ≤ ev.delta) :
    ExceptPhase (fun t => ∀ ev ∈ t.trace, 0 ≤ ev.delta)
      (fun t => ∀ ev ∈ t.trace, 0 ≤ ev.delta) (phasePreReq cfg o s) := by
  simp only [phasePreReq]
  repeat' split
  all_goals
    first
    | exact update_cost_trace hs hpr
    | exact hs

theorem phaseRepo_nonneg (cfg : RunCfg) (o : RunOracle) {s : LoopSt}
    (hin : ∀ i ∈ o.repoInputs, 0 ≤ i.agentCost ∧ 0 ≤ i.criticCost)
    (hs : ∀ ev ∈ s.trace, 0 ≤ ev.delta) :
    ExceptPhase (fun t => ∀ ev ∈ t.trace, 0 ≤ ev.delta)
      (fun t => ∀ ev ∈ t.trace, 0 ≤ ev.delta) (phaseRepo cfg o s) := by
  have hloop : ∀ ev ∈ ((runLoop repoLoopCond (repoIter cfg.REPO_CRITIC) o.repoInputs
      (loopInit s)).1).trace, 0 ≤ ev.delta :=
    runLoop_trace (fun i => 0 ≤ i.agentCost ∧ 0 ≤ i.criticCost)
      (fun s' i _ hq hs' => repoIter_nonneg _ s' i hq.1 hq.2 hs')
      o.repoInputs hin (loopInit s) hs
  unfold phaseRepo
  split
  · rcases hlr : runLoop repoLoopCond (repoIter cfg.REPO_CRITIC) o.repoInputs (loopInit s)
      with ⟨t, m⟩
    rw [hlr] at hloop
    cases m <;> simp only [repoLoopFinish] <;>
      first
      | (split
         · exact hloop
         · exact hloop)
      | exact hloop
  · split
    · exact hs
    · exact hs

theorem phaseExploit_nonneg (cfg : RunCfg) (o : RunOracle) {s : LoopSt}
    (hin : ∀ i ∈ o.exploitInputs, 0 ≤ i.agentCost ∧ 0 ≤ i.criticCost)
    (hs : ∀ ev ∈ s.trace, 0 ≤ ev.delta) :
    ExceptPhase (fun t => ∀ ev ∈ t.trace, 0 ≤ ev.delta)
      (fun t => ∀ ev ∈ t.trace, 0 ≤ ev.delta) (phaseExploit cfg o s) := by
  have hloop : ∀ ev ∈ ((runLoop exploitLoopCond (exploitIter cfg.EXPLOIT_CRITIC)
      o.exploitInputs (loopInit s)).1).trace, 0 ≤ ev.delta :=
    runLoop_trace (fun i => 0 ≤ i.agentCost ∧ 0 ≤ i.criticCost)
      (fun s' i _ hq hs' => exploitIter_nonneg _ s' i hq.1 hq.2 hs')
      o.exploitInputs hin (loopInit s) hs
  unfold phaseExploit
  split
  · rcases hlr : runLoop exploitLoopCond (exploitIter cfg.EXPLOIT_CRITIC) o.exploitInputs
      (loopInit s) with ⟨t, m⟩
    rw [hlr] at hloop
    cases m <;> simp only [exploitLoopFinish] <;>
      first
      | (split
         · exact hloop
         · exact hloop)
      | exact hloop
  · split
    · exact hs
    · exact hs

theorem phaseVerifier_nonneg (cfg : RunCfg) (o : RunOracle) {s : LoopSt}
    (hin : ∀ i ∈ o.verifierInputs, 0 ≤ i.verifierCost ∧ 0 ≤ i.sanityCost)
    (hs : ∀ ev ∈ s.trace, 0 ≤ ev.delta) :
    ∀ ev ∈ (phaseVerifier cfg o s).trace, 0 ≤ ev.delta := by
  have hloop : ∀ ev ∈ ((runLoop verifierLoopCond (verifierIter cfg.SANITY_CHECK)
      o.verifierInputs (loopInit s)).1).trace, 0 ≤ ev.delta :=
    runLoop_trace (fun i => 0 ≤ i.verifierCost ∧ 0 ≤ i.sanityCost)
      (fun s' i _ hq hs' => verifierIter_nonneg _ s' i hq.1 hq.2 hs')
      o.verifierInputs hin (loopInit s) hs
  unfold phaseVerifier
  split
  · rcases hlr : runLoop verifierLoopCond (verifierIter cfg.SANITY_CHECK) o.verifierInputs
      (loopInit s) with ⟨t, m⟩
    rw [hlr] at hloop
    cases m <;> simp only [verifierLoopFinish] <;>
      first
      | (split
         · exact hloop
         · exact hloop)
      | exact hloop
  · exact hs

theorem checkRepoBuilt_nonneg {s : LoopSt} (hs : ∀ ev ∈ s.trace, 0 ≤ ev.delta) :
    ExceptPhase (fun t => ∀ ev ∈ t.trace, 0 ≤ ev.delta)
      (fun t => ∀ ev ∈ t.trace, 0 ≤ ev.delta) (checkRepoBuilt s) := by
  unfold checkRepoBuilt
  split
  · exact hs
  · exact hs

theorem checkExploitGenerated_nonneg {s : LoopSt} (hs : ∀ ev ∈ s.trace, 0 ≤ ev.delta) :
    ExceptPhase (fun t => ∀ ev ∈ t.trace, 0 ≤ ev.delta)
      (fun t => ∀ ev ∈ t.trace, 0 ≤ ev.delta) (checkExploitGenerated s) := by
  unfold checkExploitGenerated
  split
  · exact hs
  · exact hs

theorem runMain_nonneg (cfg : RunCfg) (o : RunOracle) (hO : NonnegOracle o) :
    ∀ ev ∈ (runMain cfg o).trace, 0 ≤ ev.delta := by
  obtain ⟨h1, h2, h3, h4, h5⟩ := hO
  have h0 : ∀ ev ∈ initialState.trace, 0 ≤ ev.delta := by simp [initialState]
  have hrun : ExceptPhase (fun t => ∀ ev ∈ t.trace, 0 ≤ ev.delta)
      (fun t => ∀ ev ∈ t.trace, 0 ≤ ev.delta) (runExcept cfg o) :=
    exceptPhase_mono (exceptPhase_mono (exceptPhase_mono (exceptPhase_mono
      (exceptPhase_mono (phaseKB_nonneg cfg o h1 h0)
        (fun s h => phasePreReq_nonneg cfg o h2 h))
        (fun s h => phaseRepo_nonneg cfg o h3 h))
        (fun s h => checkRepoBuilt_nonneg h))
        (fun s h => phaseExploit_nonneg cfg o h4 h))
        (fun s h => checkExploitGenerated_nonneg h)
  unfold runMain
  rcases hre : runExcept cfg o with t | t <;> rw [hre] at hrun
  · exact hrun
  · exact phaseVerifier_nonneg cfg o h5 hrun

theorem runLoop_stopped {α : Type} (cond : LoopSt → Bool)
    (iter : LoopSt → α → LoopSt × IterMode) (inps : List α) (s : LoopSt)
    (hcond : cond s = false) : runLoop cond iter inps s = (s, .normal) := by
  cases inps <;> simp [runLoop, hcond]

theorem runLoop_abort_stops {α : Type} (cond : LoopSt → Bool)
    (iter : LoopSt → α → LoopSt × IterMode) (i : α) (rest : List α) (s : LoopSt)
    (hcond : cond s = true) (hab : (iter s i).2 = .abort) :
    runLoop cond iter (i :: rest) s = ((iter s i).1, .aborted) := by
  unfold runLoop
  rw [if_pos hcond]
  rcases hit : iter s i with ⟨t, m⟩
  rw [hit] at hab
  simp only at hab
  subst hab
  rfl

theorem runLoop_ret_step {α : Type} (cond : LoopSt → Bool)
    (iter : LoopSt → α → LoopSt × IterMode) (i : α) (rest : List α) (s : LoopSt)
    (hcond : cond s = true) (hr : (iter s i).2 = .ret) :
    runLoop cond iter (i :: rest) s = ((iter s i).1, .returned) := by
  unfold runLoop
  rw [if_pos hcond]
  rcases hit : iter s i with ⟨t, m⟩
  rw [hit] at hr
  simp only at hr
  subst hr
  rfl

theorem runLoop_ret_stops {α : Type} (cond : LoopSt → Bool)
    (iter : LoopSt → α → LoopSt × IterMode) (i : α) (rest : List α) (s : LoopSt)
    (hcond : cond s = true) (hm : (iter s i).2 = .ret ∨ (iter s i).2 = .abort) :
    runLoop cond iter (i :: rest) s = runLoop cond iter [i] s := by
  unfold runLoop
  rw [if_pos hcond, if_pos hcond]
  rcases hit : iter s i with ⟨t, m⟩
  rw [hit] at hm
  cases m
  · simp at hm
  · rfl
  · rfl

theorem criticCount_init (s : LoopSt) : CriticCount s.criticCalls (loopInit s) := by
  simp only [CriticCount, loopInit]
  omega

theorem repoLoop_criticCalls (c : Bool) (inps : List IterIn) (s : LoopSt) :
    ((runLoop repoLoopCond (repoIter c) inps (loopInit s)).1).criticCalls
      ≤ s.criticCalls + 2 := by
  have h := runLoop_state
    (fun s' i hcond hp => repoIter_critic c s.criticCalls s' i (repoLoopCond_critic hcond) hp)
    inps (loopInit s) (criticCount_init s)
  simp only [CriticCount] at h
  omega

theorem exploitLoop_criticCalls (c : Bool) (inps : List IterIn) (s : LoopSt) :
    ((runLoop exploitLoopCond (exploitIter c) inps (loopInit s)).1).criticCalls
      ≤ s.criticCalls + 2 := by
  have h := runLoop_state
    (fun s' i hcond hp =>
      exploitIter_critic c s.criticCalls s' i (exploitLoopCond_critic hcond) hp)
    inps (loopInit s) (criticCount_init s)
  simp only [CriticCount] at h
  omega

theorem sum_take_mono {l : List Cost} (h : ∀ x ∈ l, 0 ≤ x) (n : Nat) :
    (l.take n).sum ≤ (l.take (n + 1)).sum := by
  rw [List.take_succ, List.sum_append]
  have h0 : 0 ≤ (l[n]?.toList).sum := by
    cases hx : l[n]?
    · simp
    · simpa using h _ (List.getElem?_mem hx)
  linarith

theorem repoIter_infeasible (s : LoopSt) (i : IterIn) (succ : String)
    (hag : i.agentRes = .finished succ) (hsucc : pyLower succ = "yes")
    (hdec : pyLower i.critic.decision = "no") (hpos : pyLower i.critic.possible = "no") :
    ((repoIter true s i).2 = .ret ∨ (repoIter true s i).2 = .abort) ∧
    ((repoIter true s i).1).agentCalls = s.agentCalls + 1 ∧
    ((repoIter true s i).1).criticCalls = s.criticCalls + 1 ∧
    ((repoIter true s i).1).results = some ("False", "Not possible to build the repo!!!") ∧
    (¬ MAX_COST ≤ s.total_cost + i.agentCost → (repoIter true s i).2 = .ret) ∧
    (MAX_COST ≤ s.total_cost + i.agentCost → (repoIter true s i).2 = .abort) := by
  obtain ⟨ar, ac, sm, cr, cc⟩ := i
  obtain ⟨dec, pos, fb⟩ := cr
  simp only at hag hdec hpos
  subst hag
  by_cases hM : MAX_COST ≤ s.total_cost + ac
  · simp [repoIter, afterCharge, update_cost, hsucc, hdec, hpos, hM]
  · simp [repoIter, afterCharge, update_cost, hsucc, hdec, hpos, hM]

theorem exploitIter_infeasible (s : LoopSt) (i : IterIn) (succ : String)
    (hag : i.agentRes = .finished succ) (hsucc : pyLower succ = "yes")
    (hdec : pyLower i.critic.decision = "no") (hpos : pyLower i.critic.possible = "no") :
    (exploitIter true s i).2 = .ret ∧
    ((exploitIter true s i).1).agentCalls = s.agentCalls + 1 ∧
    ((exploitIter true s i).1).criticCalls = s.criticCalls + 1 ∧
    ((exploitIter true s i).1).results
      = some ("False", "Not possible to exploit the vulnerability!!!") ∧
    ((exploitIter true s i).1).trace = s.trace ∧
    ((exploitIter true s i).1).total_cost = s.total_cost := by
  obtain ⟨ar, ac, sm, cr, cc⟩ := i
  obtain ⟨dec, pos, fb⟩ := cr
  simp only at hag hdec hpos
  subst hag
  simp [exploitIter, hsucc, hdec, hpos]

theorem repoIter_criticFeedback (s : LoopSt) (i : IterIn) (succ : String)
    (hag : i.agentRes = .finished succ) (hsucc : pyLower succ = "yes")
    (hdec : pyLower i.critic.decision = "no") (hpos : ¬ pyLower i.critic.possible = "no")
    (hfb : ¬ pyStrip i.critic.feedback = "")
    (hc1 : ¬ MAX_COST ≤ s.total_cost + i.criticCost)
    (hc2 : ¬ MAX_COST ≤ s.total_cost + i.criticCost + i.agentCost) :
    (repoIter true s i).2 = .cont ∧
    ((repoIter true s i).1).tries = 1 ∧
    ((repoIter true s i).1).critic_tries = s.critic_tries + 1 ∧
    ((repoIter true s i).1).builder_feedback = none ∧
    ((repoIter true s i).1).critic_feedback = some i.critic.feedback := by
  obtain ⟨ar, ac, sm, cr, cc⟩ := i
  obtain ⟨dec, pos, fb⟩ := cr
  simp only at hag hdec hpos hfb hc1 hc2
  subst hag
  simp [repoIter, afterCharge, update_cost, hsucc, hdec, hpos, hfb, hc1, hc2]

theorem exploitIter_criticFeedback (s : LoopSt) (i : IterIn) (succ : String)
    (hag : i.agentRes = .finished succ) (hsucc : pyLower succ = "yes")
    (hdec : pyLower i.critic.decision = "no") (hpos : ¬ pyLower i.critic.possible = "no")
    (hfb : ¬ pyStrip i.critic.feedback = "")
    (hc1 : ¬ MAX_COST ≤ s.total_cost + i.criticCost)
    (hc2 : ¬ MAX_COST ≤ s.total_cost + i.criticCost + i.agentCost) :
    (exploitIter true s i).2 = .cont ∧
    ((exploitIter true s i).1).tries = 1 ∧
    ((exploitIter true s i).1).critic_tries = s.critic_tries + 1 ∧
    ((exploitIter true s i).1).builder_feedback = none ∧
    ((exploitIter true s i).1).critic_feedback = some i.critic.feedback := by
  obtain ⟨ar, ac, sm, cr, cc⟩ := i
  obtain ⟨dec, pos, fb⟩ := cr
  simp only at hag hdec hpos hfb hc1 hc2
  subst hag
  simp [exploitIter, afterCharge, update_cost, hsucc, hdec, hpos, hfb, hc1, hc2]

theorem dictInsert_hit {p : String × String} {tl : List (String × String)} {k v : String}
    (hp : p.1 = k) : dictInsert (p :: tl) k v = (k, v) :: tl := by
  simp [dictInsert, hp]

theorem dictInsert_miss {p : String × String} {tl : List (String × String)} {k v : String}
    (hp : ¬ p.1 = k) : dictInsert (p :: tl) k v = p :: dictInsert tl k v := by
  simp [dictInsert, hp]

theorem dictLookup_cons_hit {p : String × String} {tl : List (String × String)} {k : String}
    (hp : p.1 = k) : dictLookup (p :: tl) k = some p.2 := by
  simp [dictLookup, List.find?_cons, hp]

theorem dictLookup_cons_miss {p : String × String} {tl : List (String × String)} {k : String}
    (hp : ¬ p.1 = k) : dictLookup (p :: tl) k = dictLookup tl k := by
  simp [dictLookup, List.find?_cons, hp]

theorem dictLookup_insert_self (d : List (String × String)) (k v : String) :
    dictLookup (dictInsert d k v) k = some v := by
  induction d with
  | nil => simp [dictInsert, dictLookup]
  | cons p tl ih =>
      by_cases hp : p.1 = k
      · rw [dictInsert_hit hp, dictLookup_cons_hit rfl]
      · rw [dictInsert_miss hp, dictLookup_cons_miss hp]
        exact ih

theorem dictLookup_insert_ne (d : List (String × String)) (k kq v : String) (h : ¬ kq = k) :
    dictLookup (dictInsert d kq v) k = dictLookup d k := by
  induction d with
  | nil => simp [dictInsert, dictLookup, h]
  | cons p tl ih =>
      by_cases hp : p.1 = kq
      · have hpk : ¬ p.1 = k := fun hk => h (hp.symm.trans hk)
        rw [dictInsert_hit hp, dictLookup_cons_miss h, dictLookup_cons_miss hpk]
      · by_cases hpk : p.1 = k
        · rw [dictInsert_miss hp, dictLookup_cons_hit hpk, dictLookup_cons_hit hpk]
        · rw [dictInsert_miss hp, dictLookup_cons_miss hpk, dictLookup_cons_miss hpk]
          exact ih

theorem dictMerge_lookup_not_mem (env : List (String × String)) (k : String)
    (h : ∀ p ∈ env, ¬ p.1 = k) :
    ∀ base, dictLookup (dictMerge base env) k = dictLookup base k := by
  induction env with
  | nil => intro base; simp [dictMerge]
  | cons q tl ih =>
      intro base
      have hq : ¬ q.1 = k := h q (by simp)
      have htl : ∀ p ∈ tl, ¬ p.1 = k := fun p hp => h p (by simp [hp])
      show dictLookup (dictMerge (dictInsert base q.1 q.2) tl) k = dictLookup base k
      rw [ih htl, dictLookup_insert_ne _ _ _ _ hq]

theorem dictMerge_lookup (base env : List (String × String)) (k v : String)
    (hnd : (env.map Prod.fst).Nodup) (h : dictLookup env k = some v) :
    dictLookup (dictMerge base env) k = some v := by
  induction env generalizing base with
  | nil => simp [dictLookup] at h
  | cons q tl ih =>
      simp only [List.map_cons, List.nodup_cons] at hnd
      by_cases hq : q.1 = k
      · have hv : q.2 = v := by
          rw [dictLookup_cons_hit hq] at h
          exact Option.some.inj h
        have htl : ∀ p ∈ tl, ¬ p.1 = k := by
          intro p hp hpk
          exact hnd.1 (by rw [hq, ← hpk]; exact List.mem_map_of_mem Prod.fst hp)
        show dictLookup (dictMerge (dictInsert base q.1 q.2) tl) k = some v
        rw [dictMerge_lookup_not_mem tl k htl, ← hq, ← hv]
        exact dictLookup_insert_self base q.1 q.2
      · have h' : dictLookup tl k = some v := by rwa [dictLookup_cons_miss hq] at h
        show dictLookup (dictMerge (dictInsert base q.1 q.2) tl) k = some v
        exact ih (dictInsert base q.1 q.2) hnd.2 h'

theorem dictInsert_keys_sub (d : List (String × String)) (k v : String) :
    ∀ x ∈ (dictInsert d k v).map Prod.fst, x = k ∨ x ∈ d.map Prod.fst := by
  induction d with
  | nil =>
      intro x hx
      simp [dictInsert] at hx
      exact Or.inl hx
  | cons p tl ih =>
      intro x hx
      by_cases hp : p.1 = k
      · rw [dictInsert_hit hp] at hx
        simp only [List.map_cons, List.mem_cons] at hx
        rcases hx with hx | hx
        · exact Or.inl hx
        · exact Or.inr (by simp [hx])
      · rw [dictInsert_miss hp] at hx
        simp only [List.map_cons, List.mem_cons] at hx
        rcases hx with hx | hx
        · exact Or.inr (by simp [hx])
        · rcases ih x hx with h1 | h1
          · exact Or.inl h1
          · exact Or.inr (by simp [h1])

theorem dictInsert_keys_nodup (d : List (String × String)) (k v : String)
    (h : (d.map Prod.fst).Nodup) : ((dictInsert d k v).map Prod.fst).Nodup := by
  induction d with
  | nil => simp [dictInsert]
  | cons p tl ih =>
      simp only [List.map_cons, List.nodup_cons] at h
      by_cases hp : p.1 = k
      · rw [dictInsert_hit hp]
        simp only [List.map_cons, List.nodup_cons]
        exact ⟨by rw [← hp]; exact h.1, h.2⟩
      · rw [dictInsert_miss hp]
        simp only [List.map_cons, List.nodup_cons]
        refine ⟨?_, ih h.2⟩
        intro hmem
        rcases dictInsert_keys_sub tl k v p.1 hmem with h1 | h1
        · exact hp h1
        · exact h.1 h1

/-! ## Claims -/

/-- Claim C1, counterexample: in the repository-build loop, when the critic
rejects with feasible=no the code first writes the terminal conclusion into
`self.results` (main.py:214) and then charges the repo-builder cost with the
default `exception=False` (main.py:215).  In this run the charge (5.00)
accompanies an already-terminal outcome (`decided = true`) yet carries
`allowOverrun = false`, and the budget abort replaces the "Not possible to
build the repo!!!" conclusion in the persisted record. -/
theorem C1_counterexample :
    ((runMain cfgRepoOnly oracleC1).trace.map fun ev => (ev.allowOverrun, ev.decided))
        = [(false, true)] ∧
    (mainEntry cfgRepoOnly oracleC1).results
        = some ("False", "Cost exceeds maximum limit") ∧
    (mainEntry cfgRepoOnly oracleC1).results
        ≠ some ("False", "Not possible to build the repo!!!") := by
  norm_num +decide [runMain, runExcept, mainEntry, phaseKB, phasePreReq, phaseRepo,
    phaseExploit, phaseVerifier, checkRepoBuilt, checkExploitGenerated, repoLoopFinish,
    exploitLoopFinish, verifierLoopFinish, runLoop, repoIter, exploitIter, verifierIter,
    afterCharge, update_cost, mkEvent, loopInit, initialState, costAbort, Except.bind,
    repoLoopCond, exploitLoopCond, verifierLoopCond, max_repo_tries, max_critic_tries,
    MAX_COST, cfgRepoOnly, oracleC1]

/-- Claim C1 (amended): a charge's allow-overrun flag is not true exactly when
the accompanying outcome is terminal.  What holds is: outside the verifier
phase every charge passes `exception` equal to the phase's success flag
(`repo_done`/`exploit_done`) at the moment of the charge — so it is true
exactly for charges accompanying a just-accepted success, while the repo
loop's terminal reject conclusions (critic infeasible at main.py:215, empty
feedback at main.py:221) charge with allow-overrun false and can be masked by
the budget abort; and every verifier-phase charge passes `exception=True`
(main.py:490, 500) even on non-terminal retries. -/
theorem C1_allow_overrun_policy (cfg : RunCfg) (o : RunOracle) :
    ∀ ev ∈ (runMain cfg o).trace, ev.allowOverrun = (ev.site.inVerifier || ev.done) :=
  runMain_evok cfg o

/-- Claim C1 witness: the amended policy at a concrete run and charge. -/
theorem C1_allow_overrun_policy_witness :
    ∃ ev ∈ (runMain cfgKBPreReq oracleC8).trace,
      ev.allowOverrun = (ev.site.inVerifier || ev.done) := by
  have hmem : (⟨.kb, 1, false, false, false⟩ : ChargeEvent)
      ∈ (runMain cfgKBPreReq oracleC8).trace := by
    norm_num +decide [runMain, runExcept, phaseKB, phasePreReq, phaseRepo, phaseExploit,
      phaseVerifier, checkRepoBuilt, checkExploitGenerated, update_cost, mkEvent,
      initialState, costAbort, Except.bind, cfgKBPreReq, oracleC8, MAX_COST]
  exact ⟨_, hmem, C1_allow_overrun_policy cfgKBPreReq oracleC8 _ hmem⟩

/-- Claim C2: in both the repository-build and exploit loops, when the agent
reports explicit success and the critic rejects with feasible=yes and
non-empty feedback, the attempt counter is reset so that the next loop test
sees attempt = 1 (main.py:227 sets it to 0 and main.py:254 increments), the
critic-round counter is incremented, builder feedback is cleared and the
critic's feedback text is staged for the next attempt.  The two budget
hypotheses say the two charges of that iteration stay below the ceiling, so
the iteration falls through to the next attempt. -/
theorem C2_critic_feedback_resets (s : LoopSt) (i : IterIn) (succ : String)
    (hag : i.agentRes = .finished succ) (hsucc : pyLower succ = "yes")
    (hdec : pyLower i.critic.decision = "no") (hpos : ¬ pyLower i.critic.possible = "no")
    (hfb : ¬ pyStrip i.critic.feedback = "")
    (hc1 : ¬ MAX_COST ≤ s.total_cost + i.criticCost)
    (hc2 : ¬ MAX_COST ≤ s.total_cost + i.criticCost + i.agentCost) :
    ((repoIter true s i).2 = .cont ∧
      ((repoIter true s i).1).tries = 1 ∧
      ((repoIter true s i).1).critic_tries = s.critic_tries + 1 ∧
      ((repoIter true s i).1).builder_feedback = none ∧
      ((repoIter true s i).1).critic_feedback = some i.critic.feedback) ∧
    ((exploitIter true s i).2 = .cont ∧
      ((exploitIter true s i).1).tries = 1 ∧
      ((exploitIter true s i).1).critic_tries = s.critic_tries + 1 ∧
      ((exploitIter true s i).1).builder_feedback = none ∧
      ((exploitIter true s i).1).critic_feedback = some i.critic.feedback) :=
  ⟨repoIter_criticFeedback s i succ hag hsucc hdec hpos hfb hc1 hc2,
   exploitIter_criticFeedback s i succ hag hsucc hdec hpos hfb hc1 hc2⟩

theorem qfactC2a : ¬ MAX_COST ≤ stFresh.total_cost + iterC2.criticCost := by
  norm_num [stFresh, loopInit, initialState, iterC2, MAX_COST]

theorem qfactC2b : ¬ MAX_COST ≤ stFresh.total_cost + iterC2.criticCost + iterC2.agentCost := by
  norm_num [stFresh, loopInit, initialState, iterC2, MAX_COST]

/-- Claim C2 witness: the reset at a concrete state and critic reply. -/
theorem C2_critic_feedback_resets_witness :
    ((repoIter true stFresh iterC2).1).tries = 1 ∧
    ((exploitIter true stFresh iterC2).1).tries = 1 ∧
    ((repoIter true stFresh iterC2).1).critic_feedback = some "retry X" :=
  ⟨(C2_critic_feedback_resets stFresh iterC2 "yes" rfl (by decide) (by decide) (by decide)
      (by decide) qfactC2a qfactC2b).1.2.1,
   (C2_critic_feedback_resets stFresh iterC2 "yes" rfl (by decide) (by decide) (by decide)
      (by decide) qfactC2a qfactC2b).2.2.1,
   (C2_critic_feedback_resets stFresh iterC2 "yes" rfl (by decide) (by decide) (by decide)
      (by decide) qfactC2a qfactC2b).1.2.2.2.2⟩

/-- Claim C3: in the repository-build and exploit loops the critic is invoked
at most 2 times per phase (parts 1-2: starting from the loop initialisation,
the instrumented critic-invocation count grows by at most 2); once the
critic-round counter exceeds its cap of 2 the loop stops without running any
further iteration regardless of the attempt counter, and the phase ends with
its loop-failure result (parts 3-4); the attempt cap is 3: the loop likewise
refuses to iterate once the attempt counter exceeds 3 (parts 5-6). -/
theorem C3_critic_round_cap :
    (∀ (c : Bool) (inps : List IterIn) (s : LoopSt),
      ((runLoop repoLoopCond (repoIter c) inps (loopInit s)).1).criticCalls
        ≤ s.criticCalls + 2) ∧
    (∀ (c : Bool) (inps : List IterIn) (s : LoopSt),
      ((runLoop exploitLoopCond (exploitIter c) inps (loopInit s)).1).criticCalls
        ≤ s.criticCalls + 2) ∧
    (∀ (c : Bool) (inps : List IterIn) (s : LoopSt), s.done = false → 2 < s.critic_tries →
      runLoop repoLoopCond (repoIter c) inps s = (s, .normal) ∧
      repoLoopFinish (s, .normal)
        = .error { s with results := some ("False", "Repo could not be built") }) ∧
    (∀ (c : Bool) (inps : List IterIn) (s : LoopSt), s.done = false → 2 < s.critic_tries →
      runLoop exploitLoopCond (exploitIter c) inps s = (s, .normal) ∧
      exploitLoopFinish (s, .normal)
        = .error { s with results := some ("False", "Exploiter failed") }) ∧
    (∀ (c : Bool) (inps : List IterIn) (s : LoopSt), s.done = false → 3 < s.tries →
      runLoop repoLoopCond (repoIter c) inps s = (s, .normal)) ∧
    (∀ (c : Bool) (inps : List IterIn) (s : LoopSt), s.done = false → 3 < s.tries →
      runLoop exploitLoopCond (exploitIter c) inps s = (s, .normal)) := by
  refine ⟨repoLoop_criticCalls, exploitLoop_criticCalls, ?_, ?_, ?_, ?_⟩
  · intro c inps s hd hc
    have h2 : ¬ s.critic_tries ≤ 2 := by omega
    have hcond : repoLoopCond s = false := by
      simp [repoLoopCond, max_critic_tries, h2]
    exact ⟨runLoop_stopped _ _ inps s hcond, by simp [repoLoopFinish, hd]⟩
  · intro c inps s hd hc
    have h2 : ¬ s.critic_tries ≤ 2 := by omega
    have hcond : exploitLoopCond s = false := by
      simp [exploitLoopCond, max_exploit_critic_tries, h2]
    exact ⟨runLoop_stopped _ _ inps s hcond, by simp [exploitLoopFinish, hd]⟩
  · intro c inps s hd ht
    have h3 : ¬ s.tries ≤ 3 := by omega
    have hcond : repoLoopCond s = false := by
      simp [repoLoopCond, max_repo_tries, h3]
    exact runLoop_stopped _ _ inps s hcond
  · intro c inps s hd ht
    have h3 : ¬ s.tries ≤ 3 := by omega
    have hcond : exploitLoopCond s = false := by
      simp [exploitLoopCond, max_exploit_tries, h3]
    exact runLoop_stopped _ _ inps s hcond

/-- Claim C3 witness: the cap at a concrete over-cap state and the invocation
bound at a concrete loop entry. -/
theorem C3_critic_round_cap_witness :
    runLoop repoLoopCond (repoIter true) [] stCriticSpent = (stCriticSpent, .normal) ∧
    ((runLoop repoLoopCond (repoIter true) [] (loopInit stFresh)).1).criticCalls
      ≤ stFresh.criticCalls + 2 :=
  ⟨(C3_critic_round_cap.2.2.1 true [] stCriticSpent (by decide) (by decide)).1,
   C3_critic_round_cap.1 true [] stFresh⟩

/-- Claim C4: `update_cost` raises exactly when the new total meets or exceeds
the 5.00 ceiling and allow-overrun is false (parts 1-2); a body of any retry
loop that raises the budget error ends the loop at once, discarding all
remaining iterations (part 3); and a run whose budget error fired ends with
the persisted result carrying the cost reason — no loop retries it
(part 4). -/
theorem C4_budget_abort :
    (∀ (site : ChargeSite) (s : LoopSt) (d : Cost),
      MAX_COST ≤ s.total_cost + d → (update_cost site s d false).2 = true) ∧
    (∀ (site : ChargeSite) (s : LoopSt) (d : Cost), (update_cost site s d true).2 = false) ∧
    (∀ (α : Type) (cond : LoopSt → Bool) (iter : LoopSt → α → LoopSt × IterMode)
      (i : α) (rest : List α) (s : LoopSt), cond s = true → (iter s i).2 = .abort →
      runLoop cond iter (i :: rest) s = ((iter s i).1, .aborted)) ∧
    (∀ (cfg : RunCfg) (o : RunOracle), (runMain cfg o).aborted = true →
      (mainEntry cfg o).results = some ("False", "Cost exceeds maximum limit")) := by
  refine ⟨?_, ?_, ?_, ?_⟩
  · intro site s d h
    simp [update_cost, h]
  · intro site s d
    simp [update_cost]
  · intro α cond iter i rest s hcond hab
    exact runLoop_abort_stops cond iter i rest s hcond hab
  · intro cfg o hab
    simpa [mainEntry] using (runMain_abort cfg o hab).1

theorem qfactC4 : MAX_COST ≤ initialState.total_cost + 5 := by
  norm_num [initialState, MAX_COST]

theorem abortedC4 : (runMain cfgKBOnly oracleC4).aborted = true := by
  norm_num +decide [runMain, runExcept, phaseKB, phasePreReq, phaseRepo, phaseExploit,
    phaseVerifier, checkRepoBuilt, checkExploitGenerated, update_cost, mkEvent,
    initialState, costAbort, Except.bind, cfgKBOnly, oracleC4, MAX_COST]

/-- Claim C4 witness: a concrete crossing charge raises, and a concrete run
whose knowledge-builder charge crosses the ceiling persists the cost
reason. -/
theorem C4_budget_abort_witness :
    (update_cost .kb initialState 5 false).2 = true ∧
    (mainEntry cfgKBOnly oracleC4).results = some ("False", "Cost exceeds maximum limit") :=
  ⟨C4_budget_abort.1 .kb initialState 5 qfactC4,
   C4_budget_abort.2.2.2 cfgKBOnly oracleC4 abortedC4⟩

/-- Claim C5, counterexample: in the repository-build loop the critic's
reject+infeasible conclusion is charged with allow-overrun false
(main.py:215), so when that charge crosses the ceiling the persisted run
result is the budget reason, not the claimed "not possible" reason — even
though the critic was consulted exactly once and did reject infeasibly
(the oracle's reply is decision=no, possible=no). -/
theorem C5_counterexample :
    (mainEntry cfgRepoOnly oracleC5).results = some ("False", "Cost exceeds maximum limit") ∧
    (runMain cfgRepoOnly oracleC5).criticCalls = 1 ∧
    (runMain cfgRepoOnly oracleC5).agentCalls = 1 ∧
    (mainEntry cfgRepoOnly oracleC5).results
      ≠ some ("False", "Not possible to build the repo!!!") := by
  norm_num +decide [runMain, runExcept, mainEntry, phaseKB, phasePreReq, phaseRepo,
    phaseExploit, phaseVerifier, checkRepoBuilt, checkExploitGenerated, repoLoopFinish,
    exploitLoopFinish, verifierLoopFinish, runLoop, repoIter, exploitIter, verifierIter,
    afterCharge, update_cost, mkEvent, loopInit, initialState, costAbort, Except.bind,
    repoLoopCond, exploitLoopCond, verifierLoopCond, max_repo_tries, max_critic_tries,
    MAX_COST, cfgRepoOnly, oracleC5]

/-- Claim C5 (amended): a critic decision of reject with feasible=no ends the
phase loop terminally within that same call — no further iteration of the
oracle input is consumed, and exactly one additional agent invocation and one
critic invocation happened.  In the exploit loop nothing is charged and the
run result is the "not possible" reason unconditionally; in the repo loop the
result is the "not possible" reason only when the accompanying repo-builder
charge stays below the ceiling — otherwise the loop still ends in that same
call but the budget abort replaces the reason. -/
theorem C5_infeasible_terminal (s : LoopSt) (rest : List IterIn) (i : IterIn) (succ : String)
    (hcondR : repoLoopCond s = true) (hcondE : exploitLoopCond s = true)
    (hag : i.agentRes = .finished succ) (hsucc : pyLower succ = "yes")
    (hdec : pyLower i.critic.decision = "no") (hpos : pyLower i.critic.possible = "no") :
    (runLoop repoLoopCond (repoIter true) (i :: rest) s
        = runLoop repoLoopCond (repoIter true) [i] s ∧
      ((repoIter true s i).1).agentCalls = s.agentCalls + 1 ∧
      ((repoIter true s i).1).criticCalls = s.criticCalls + 1 ∧
      ((repoIter true s i).1).results
        = some ("False", "Not possible to build the repo!!!") ∧
      (¬ MAX_COST ≤ s.total_cost + i.agentCost →
        runLoop repoLoopCond (repoIter true) (i :: rest) s
          = ((repoIter true s i).1, .returned)) ∧
      (MAX_COST ≤ s.total_cost + i.agentCost →
        runLoop repoLoopCond (repoIter true) (i :: rest) s
          = ((repoIter true s i).1, .aborted) ∧
        repoLoopFinish ((repoIter true s i).1, .aborted)
          = .error (costAbort ((repoIter true s i).1)))) ∧
    (runLoop exploitLoopCond (exploitIter true) (i :: rest) s
        = ((exploitIter true s i).1, .returned) ∧
      ((exploitIter true s i).1).results
        = some ("False", "Not possible to exploit the vulnerability!!!") ∧
      ((exploitIter true s i).1).trace = s.trace ∧
      ((exploitIter true s i).1).total_cost = s.total_cost ∧
      ((exploitIter true s i).1).agentCalls = s.agentCalls + 1 ∧
      ((exploitIter true s i).1).criticCalls = s.criticCalls + 1) := by
  have hR := repoIter_infeasible s i succ hag hsucc hdec hpos
  have hE := exploitIter_infeasible s i succ hag hsucc hdec hpos
  refine ⟨⟨runLoop_ret_stops _ _ i rest s hcondR hR.1, hR.2.1, hR.2.2.1, hR.2.2.2.1,
      ?_, ?_⟩,
    runLoop_ret_step _ _ i rest s hcondE hE.1, hE.2.2.2.1, hE.2.2.2.2.1, hE.2.2.2.2.2,
    hE.2.1, hE.2.2.1⟩
  · intro hM
    exact runLoop_ret_step _ _ i rest s hcondR (hR.2.2.2.2.1 hM)
  · intro hM
    exact ⟨runLoop_abort_stops _ _ i rest s hcondR (hR.2.2.2.2.2 hM), rfl⟩

theorem qfactC5 : ¬ MAX_COST ≤ stFresh.total_cost + iterC5.agentCost := by
  norm_num [stFresh, loopInit, initialState, iterC5, MAX_COST]

/-- Claim C5 witness: the terminal infeasible rejection at a concrete state. -/
theorem C5_infeasible_terminal_witness :
    ((repoIter true stFresh iterC5).1).results
      = some ("False", "Not possible to build the repo!!!") ∧
    runLoop repoLoopCond (repoIter true) [iterC5, iterC5] stFresh
      = ((repoIter true stFresh iterC5).1, .returned) ∧
    ((exploitIter true stFresh iterC5).1).trace = stFresh.trace :=
  ⟨(C5_infeasible_terminal stFresh [iterC5] iterC5 "yes" (by decide) (by decide) rfl
      (by decide) (by decide) (by decide)).1.2.2.2.1,
   (C5_infeasible_terminal stFresh [iterC5] iterC5 "yes" (by decide) (by decide) rfl
      (by decide) (by decide) (by decide)).1.2.2.2.2.1 qfactC5,
   (C5_infeasible_terminal stFresh [iterC5] iterC5 "yes" (by decide) (by decide) rfl
      (by decide) (by decide) (by decide)).2.2.2.1⟩

/-- Claim C6: a foreground execution that times out returns the documented
sentinel (part 1, command_ops.py:127-128) and one that completes returns the
bounded tail of the two logs (part 2); `get_last_lines` returns exactly the
concatenation of the last at-most-100 lines together with the total original
line count, and that tail never exceeds 100 lines (part 3); for every outcome
the result is one of these two strings — the model is total, no exception
reaches the caller (part 4). -/
theorem C6_foreground_bounded :
    (∀ (runCmd : String → List (String × String) → CmdOutcome)
      (base overlay : List (String × String)) (cmd ol el : String),
      runCmd cmd (dictMerge base overlay) = .timedOut →
        execute_command_foreground runCmd base overlay cmd ol el = TIMEOUT_MESSAGE) ∧
    (∀ (runCmd : String → List (String × String) → CmdOutcome)
      (base overlay : List (String × String)) (cmd ol el : String) (so se : List String),
      runCmd cmd (dictMerge base overlay) = .completed so se →
        execute_command_foreground runCmd base overlay cmd ol el
          = get_tail_log ol el so se) ∧
    (∀ lines : List String,
      (get_last_lines lines 100).1 = String.join (lines.drop (lines.length - 100)) ∧
      (get_last_lines lines 100).2 = lines.length ∧
      (lines.drop (lines.length - 100)).length ≤ 100) ∧
    (∀ (runCmd : String → List (String × String) → CmdOutcome)
      (base overlay : List (String × String)) (cmd ol el : String),
      execute_command_foreground runCmd base overlay cmd ol el = TIMEOUT_MESSAGE ∨
      ∃ so se, execute_command_foreground runCmd base overlay cmd ol el
          = get_tail_log ol el so se) := by
  refine ⟨?_, ?_, ?_, ?_⟩
  · intro runCmd base overlay cmd ol el h
    simp only [execute_command_foreground, h]
  · intro runCmd base overlay cmd ol el so se h
    simp only [execute_command_foreground, h]
  · intro lines
    refine ⟨rfl, rfl, ?_⟩
    simp only [List.length_drop]
    omega
  · intro runCmd base overlay cmd ol el
    unfold execute_command_foreground
    cases h : runCmd cmd (dictMerge base overlay)
    · exact Or.inl rfl
    · exact Or.inr ⟨_, _, rfl⟩

/-- Claim C6 witness: the sentinel on a timing-out command and the bounded
tail on a completing one. -/
theorem C6_foreground_bounded_witness :
    execute_command_foreground osAllTimeout [] [] "sleep 1000" "o" "e" = TIMEOUT_MESSAGE ∧
    execute_command_foreground osFixedOut [] [] "ls" "o" "e"
      = get_tail_log "o" "e" ["a\n", "b\n"] [] :=
  ⟨C6_foreground_bounded.1 osAllTimeout [] [] "sleep 1000" "o" "e" rfl,
   C6_foreground_bounded.2.1 osFixedOut [] [] "ls" "o" "e" ["a\n", "b\n"] [] rfl⟩

/-- Claim C7: the staged-overlay algebra of `set_environment_variable`.
Setting FOO=1 with clear and then BAR=2 without leaves exactly
the overlay FOO↦1, BAR↦2 (part 1); with clear the overlay is first emptied
(part 2), without it the pair is inserted into the existing overlay (part 3);
the confirmation message displays the resulting overlay (part 4); every
staged binding survives the `os.environ | env` merge a subsequent command
runs under (parts 5, 8, for overlays with unique keys — part 6 shows the
operation preserves key uniqueness); and a completing foreground command
consults exactly that merged environment (part 7). -/
theorem C7_env_overlay :
    (∀ s : SandboxSt,
      ((set_environment_variable (set_environment_variable s "FOO" "1" true).1
          "BAR" "2" false).1).env = [("FOO", "1"), ("BAR", "2")]) ∧
    (∀ (s : SandboxSt) (k v : String),
      ((set_environment_variable s k v true).1).env = [(k, v)]) ∧
    (∀ (s : SandboxSt) (k v : String),
      ((set_environment_variable s k v false).1).env = dictInsert s.env k v) ∧
    (∀ (s : SandboxSt) (k v : String) (c : Bool),
      (set_environment_variable s k v c).2
        = "Success, current env_list="
            ++ envRepr (((set_environment_variable s k v c).1).env) ++ ".") ∧
    (∀ (base env : List (String × String)) (k v : String), (env.map Prod.fst).Nodup →
      dictLookup env k = some v → dictLookup (dictMerge base env) k = some v) ∧
    (∀ (s : SandboxSt) (k v : String) (c : Bool), (s.env.map Prod.fst).Nodup →
      ((((set_environment_variable s k v c).1).env.map Prod.fst)).Nodup) ∧
    (∀ (runCmd : String → List (String × String) → CmdOutcome)
      (base : List (String × String)) (s : SandboxSt) (cmd ol el : String)
      (so se : List String),
      runCmd cmd (dictMerge base s.env) = .completed so se →
        execute_command_foreground runCmd base s.env cmd ol el
          = get_tail_log ol el so se) ∧
    (∀ base : List (String × String),
      dictLookup (dictMerge base [("FOO", "1"), ("BAR", "2")]) "FOO" = some "1" ∧
      dictLookup (dictMerge base [("FOO", "1"), ("BAR", "2")]) "BAR" = some "2") := by
  refine ⟨fun s => rfl, fun s k v => rfl, fun s k v => rfl, fun s k v c => rfl,
    ?_, ?_, ?_, ?_⟩
  · intro base env k v hnd h
    exact dictMerge_lookup base env k v hnd h
  · intro s k v c h
    cases c
    · exact dictInsert_keys_nodup s.env k v h
    · simp [set_environment_variable, dictInsert]
  · intro runCmd base s cmd ol el so se h
    simp only [execute_command_foreground, h]
  · intro base
    exact ⟨dictMerge_lookup base _ "FOO" "1" (by decide) rfl,
      dictMerge_lookup base _ "BAR" "2" (by decide) rfl⟩

/-- Claim C7 witness: the merged lookup, key-uniqueness preservation and the
merged execution environment at concrete values. -/
theorem C7_env_overlay_witness :
    dictLookup (dictMerge [("PATH", "/bin")] [("FOO", "1"), ("BAR", "2")]) "FOO"
      = some "1" ∧
    ((((set_environment_variable sandboxB "X" "y" false).1).env.map Prod.fst)).Nodup ∧
    execute_command_foreground osFixedOut [] sandboxA.env "make" "o" "e"
      = get_tail_log "o" "e" ["a\n", "b\n"] [] :=
  ⟨C7_env_overlay.2.2.2.2.1 [("PATH", "/bin")] [("FOO", "1"), ("BAR", "2")] "FOO" "1"
      (by decide) rfl,
   C7_env_overlay.2.2.2.2.2.1 sandboxB "X" "y" false (by decide),
   C7_env_overlay.2.2.2.2.2.2.1 osFixedOut [] sandboxA "make" "o" "e" ["a\n", "b\n"] [] rfl⟩

/-- Claim C8: `update_cost` with a nonnegative delta never decreases the
running total (part 1); under an oracle whose reported costs are all
nonnegative (they are API charges) every charged delta of a run is
nonnegative (part 2), the partial sums of the charged deltas are monotone
non-decreasing along the run (part 3), and the final total is nonnegative
(part 4). -/
theorem C8_cost_monotone :
    (∀ (site : ChargeSite) (s : LoopSt) (d : Cost) (e : Bool), 0 ≤ d →
      s.total_cost ≤ ((update_cost site s d e).1).total_cost) ∧
    (∀ (cfg : RunCfg) (o : RunOracle), NonnegOracle o →
      ∀ ev ∈ (runMain cfg o).trace, 0 ≤ ev.delta) ∧
    (∀ (cfg : RunCfg) (o : RunOracle), NonnegOracle o → ∀ n : Nat,
      (((runMain cfg o).trace.map ChargeEvent.delta).take n).sum
        ≤ (((runMain cfg o).trace.map ChargeEvent.delta).take (n + 1)).sum) ∧
    (∀ (cfg : RunCfg) (o : RunOracle), NonnegOracle o →
      0 ≤ (runMain cfg o).total_cost) := by
  have hnn : ∀ (cfg : RunCfg) (o : RunOracle), NonnegOracle o →
      ∀ x ∈ (runMain cfg o).trace.map ChargeEvent.delta, 0 ≤ x := by
    intro cfg o hO x hx
    rcases List.mem_map.mp hx with ⟨ev, hev, hevx⟩
    exact hevx ▸ runMain_nonneg cfg o hO ev hev
  refine ⟨?_, ?_, ?_, ?_⟩
  · intro site s d e h
    simp only [update_cost]
    linarith
  · exact runMain_nonneg
  · intro cfg o hO n
    exact sum_take_mono (hnn cfg o hO) n
  · intro cfg o hO
    have hsum := runMain_sum cfg o
    simp only [TraceSum, sumDeltas] at hsum
    rw [hsum]
    exact List.sum_nonneg (hnn cfg o hO)

theorem nonnegOracleC8 : NonnegOracle oracleC8 := by
  refine ⟨by norm_num [oracleC8], by norm_num [oracleC8], ?_, ?_, ?_⟩ <;>
    simp [oracleC8]

/-- Claim C8 witness: monotonicity at a concrete run with nonnegative costs. -/
theorem C8_cost_monotone_witness :
    0 ≤ (runMain cfgKBPreReq oracleC8).total_cost ∧
    (((runMain cfgKBPreReq oracleC8).trace.map ChargeEvent.delta).take 1).sum
      ≤ (((runMain cfgKBPreReq oracleC8).trace.map ChargeEvent.delta).take 2).sum :=
  ⟨C8_cost_monotone.2.2.2 cfgKBPreReq oracleC8 nonnegOracleC8,
   C8_cost_monotone.2.2.1 cfgKBPreReq oracleC8 nonnegOracleC8 1⟩

/-- Claim C10: `update_cost` adds the full delta to the running total before
deciding whether to raise — also when it raises, so the charge is never
rolled back (part 1); the cost in the persisted run record equals the sum of
every charged delta of the run, the ceiling-crossing one included (part 2);
and a run ended by the budget abort records a cost at or past the ceiling,
which is only possible because the crossing charge was kept (part 3). -/
theorem C10_charge_kept_on_abort :
    (∀ (site : ChargeSite) (s : LoopSt) (d : Cost) (e : Bool),
      ((update_cost site s d e).1).total_cost = s.total_cost + d) ∧
    (∀ (cfg : RunCfg) (o : RunOracle),
      (mainEntry cfg o).cost = sumDeltas (runMain cfg o).trace) ∧
    (∀ (cfg : RunCfg) (o : RunOracle), (runMain cfg o).aborted = true →
      MAX_COST ≤ (mainEntry cfg o).cost) := by
  refine ⟨fun site s d e => rfl, ?_, ?_⟩
  · intro cfg o
    exact runMain_sum cfg o
  · intro cfg o hab
    exact (runMain_abort cfg o hab).2

theorem abortedC10 : (runMain cfgKBPreReq oracleC10).aborted = true := by
  norm_num +decide [runMain, runExcept, phaseKB, phasePreReq, phaseRepo, phaseExploit,
    phaseVerifier, checkRepoBuilt, checkExploitGenerated, update_cost, mkEvent,
    initialState, costAbort, Except.bind, cfgKBPreReq, oracleC10, MAX_COST]

/-- Claim C10 witness: a run aborted by its second charge records the full
sum of both charges. -/
theorem C10_charge_kept_on_abort_witness :
    MAX_COST ≤ (mainEntry cfgKBPreReq oracleC10).cost ∧
    (mainEntry cfgKBPreReq oracleC10).cost = sumDeltas (runMain cfgKBPreReq oracleC10).trace :=
  ⟨C10_charge_kept_on_abort.2.2 cfgKBPreReq oracleC10 abortedC10,
   C10_charge_kept_on_abort.2.1 cfgKBPreReq oracleC10⟩

/-- Claim C9, counterexample: `execute_find_command` changes the process
working directory before running `find` (command_ops.py:18-19) and restores
it only after `subprocess.run` returns; when the 10-second subprocess timeout
fires the exception propagates (result `none`) and the working directory is
left changed — the helper is not stateless.  Moreover the `ls` helper's
output runs under the staged overlay, so two sandbox states differing only in
the overlay can produce different results for the same directory. -/
theorem C9_counterexample :
    (execute_find_command findAllTimeout sandboxA "conf" "repo").1 ≠ sandboxA ∧
    (execute_find_command findAllTimeout sandboxA "conf" "repo").2 = none ∧
    (execute_ls_command osEchoProbe [] sandboxB "/tmp" "o" "e").2
      ≠ (execute_ls_command osEchoProbe [] sandboxC "/tmp" "o" "e").2 := by
  refine ⟨by decide, rfl, by decide⟩

/-- Claim C9 (amended): the read-only helpers leave sandbox state unchanged
whenever their subprocess completes — `execute_find_command` restores the
saved working directory (part 1) and `execute_ls_command` never touches state
at all (part 2); but a `find` whose subprocess times out leaves the working
directory changed to the repository directory and propagates the exception
(part 3); and the `ls` result is the foreground executor's output for
`ls -a {dir}` under the current overlay, so it depends on the staged
environment as well as the directory (part 4). -/
theorem C9_helpers_state :
    (∀ (runFind : String → FindOutcome) (s : SandboxSt) (f r out : String),
      runFind (findCmdString f) = .completed out →
        (execute_find_command runFind s f r).1 = s) ∧
    (∀ (runCmd : String → List (String × String) → CmdOutcome)
      (base : List (String × String)) (s : SandboxSt) (dir ol el : String),
      (execute_ls_command runCmd base s dir ol el).1 = s) ∧
    (∀ (runFind : String → FindOutcome) (s : SandboxSt) (f r : String),
      runFind (findCmdString f) = .timedOut →
        (execute_find_command runFind s f r).1.cwd = s.cwd ++ "/" ++ simEnvDir ++ r ∧
        (execute_find_command runFind s f r).2 = none ∧
        (execute_find_command runFind s f r).1.env = s.env ∧
        (execute_find_command runFind s f r).1.background_pids = s.background_pids) ∧
    (∀ (runCmd : String → List (String × String) → CmdOutcome)
      (base : List (String × String)) (s : SandboxSt) (dir ol el : String),
      (execute_ls_command runCmd base s dir ol el).2
        = execute_command_foreground runCmd base s.env ("ls -a " ++ dir) ol el) := by
  refine ⟨?_, fun _ _ _ _ _ _ => rfl, ?_, fun _ _ _ _ _ _ => rfl⟩
  · intro runFind s f r out h
    simp only [execute_find_command, h]
  · intro runFind s f r h
    simp [execute_find_command, h]

/-- Claim C9 witness: state restoration on a completing find. -/
theorem C9_helpers_state_witness :
    (execute_find_command findHit sandboxA "a" "repo").1 = sandboxA ∧
    (execute_find_command findAllTimeout sandboxA "a" "repo").2 = none :=
  ⟨C9_helpers_state.1 findHit sandboxA "a" "repo" "./a.c\n" rfl,
   (C9_helpers_state.2.2.1 findAllTimeout sandboxA "a" "repo" rfl).2.1⟩
